import Mathlib

/-!
Shallow embedding of the k9sight interactive TUI core: the Navigator
component (internal/ui/components/navigator.go), the Dashboard view with its
overlay stack (internal/ui/views/dashboard.go), and the Root Controller
(internal/app/app.go), together with the key-binding table
(internal/ui/keys/keys.go).

Machine integers are modelled as Int (Go `int`), strings as Lean String,
slices as List.  Purely presentational state (lipgloss styles, spinner
animation, breadcrumb text, box drawing) is not part of the embedding; the
structure of every Update/handler function is translated branch-for-branch
from the Go source.  The bubbles library widgets (textinput, viewport) are
external collaborators: only the operations the repository itself invokes on
them are modelled, on their value-relevant state.
-/

namespace K9sight

/-- Go `strings.Contains s sub`: `sub` occurs as a contiguous substring of
`s`. -/
def strContains (s sub : String) : Bool :=
  decide (sub.data <:+: s.data)

/-- Go `strings.ToLower` (the repository only ever filters ASCII resource
names and statuses). -/
def strToLower (s : String) : String :=
  ⟨s.data.map Char.toLower⟩

/-! ## k8s data types (internal/k8s/client.go) -/

inductive ResourceType
  | pods
  | deployments
  | statefulsets
  | daemonsets
  | jobs
  | cronjobs
  deriving DecidableEq, Repr

/-- `AllResourceTypes` from internal/k8s/client.go. -/
def AllResourceTypes : List ResourceType :=
  [.deployments, .statefulsets, .daemonsets, .jobs, .cronjobs, .pods]

structure WorkloadInfo where
  name : String
  ns : String
  type : ResourceType
  ready : String
  replicas : Int
  age : String
  status : String
  deriving DecidableEq, Repr

structure ContainerInfo where
  name : String
  image : String
  deriving DecidableEq, Repr

structure PodInfo where
  name : String
  ns : String
  node : String
  status : String
  ready : String
  restarts : Int
  age : String
  ip : String
  containers : List ContainerInfo
  deriving DecidableEq, Repr

structure LogLine where
  container : String
  content : String
  isError : Bool
  deriving DecidableEq, Repr

structure EventInfo where
  type : String
  reason : String
  message : String
  age : String
  deriving DecidableEq, Repr

structure ContainerMetrics where
  name : String
  cpuUsage : String
  memoryUsage : String
  deriving DecidableEq, Repr

structure PodMetrics where
  name : String
  ns : String
  containers : List ContainerMetrics
  deriving DecidableEq, Repr

structure RelatedResources where
  services : List String
  ingresses : List String
  configMaps : List String
  secrets : List String
  deriving DecidableEq, Repr

structure DebugHelper where
  issue : String
  severity : String
  suggestions : List String
  deriving DecidableEq, Repr

/-! ## Key binding table (internal/ui/keys/keys.go)

A `tea.KeyMsg` is identified by its `String()` form; a binding is the list of
key strings it matches (`key.WithKeys`). -/

structure KeyMap where
  up : List String
  down : List String
  left : List String
  right : List String
  home : List String
  endOfList : List String
  pageUp : List String
  pageDown : List String
  enter : List String
  back : List String
  quit : List String
  help : List String
  refresh : List String
  search : List String
  clear : List String
  nextPanel : List String
  prevPanel : List String
  panel1 : List String
  panel2 : List String
  panel3 : List String
  panel4 : List String
  nsSelect : List String
  resourceType : List String
  toggleFullView : List String
  podActions : List String
  copyCommands : List String
  deriving DecidableEq, Repr

/-- Go `key.Matches(msg, binding)`. -/
def keyMatches (binding : List String) (msg : String) : Bool :=
  binding.contains msg

/-- `DefaultKeyMap` from internal/ui/keys/keys.go.  The `podActions` and
`copyCommands` bindings are used by the Dashboard but their key definitions
are not among the source files; the concrete key strings chosen here are
immaterial (every theorem below quantifies over the key map or does not
depend on these two bindings). -/
def DefaultKeyMap : KeyMap where
  up := ["up", "k"]
  down := ["down", "j"]
  left := ["left", "h"]
  right := ["right", "l"]
  home := ["g", "home"]
  endOfList := ["G", "end"]
  pageUp := ["pgup", "ctrl+u"]
  pageDown := ["pgdown", "ctrl+d"]
  enter := ["enter"]
  back := ["esc"]
  quit := ["q", "ctrl+c"]
  help := ["?"]
  refresh := ["r"]
  search := ["/"]
  clear := ["c"]
  nextPanel := ["tab"]
  prevPanel := ["shift+tab"]
  panel1 := ["1"]
  panel2 := ["2"]
  panel3 := ["3"]
  panel4 := ["4"]
  nsSelect := ["n"]
  resourceType := ["t"]
  toggleFullView := ["v"]
  podActions := ["x"]
  copyCommands := ["C"]

/-- Value-relevant behaviour of the bubbles `textinput` widget (an external
collaborator): a single-character key is appended to the value up to the
configured `CharLimit` of 50, backspace removes the last character, any other
key leaves the value unchanged. -/
def textinputUpdate (value : String) (key : String) : String :=
  if key.length = 1 ∧ value.length < 50 then value ++ key
  else if key = "backspace" then value.dropRight 1
  else value

/-! ## Navigator (internal/ui/components/navigator.go) -/

inductive NavigatorMode
  | ModeWorkloads
  | ModePods
  | ModeNamespace
  | ModeResourceType
  deriving DecidableEq, Repr

structure Navigator where
  workloads : List WorkloadInfo
  pods : List PodInfo
  namespaces : List String
  cursor : Int
  mode : NavigatorMode
  width : Int
  height : Int
  searchInput : String
  searching : Bool
  searchQuery : String
  resourceType : ResourceType
  keys : KeyMap
  deriving DecidableEq, Repr

def NewNavigator : Navigator where
  workloads := []
  pods := []
  namespaces := []
  cursor := 0
  mode := .ModeWorkloads
  width := 0
  height := 0
  searchInput := ""
  searching := false
  searchQuery := ""
  resourceType := .deployments
  keys := DefaultKeyMap

namespace Navigator

def filteredWorkloads (n : Navigator) : List WorkloadInfo :=
  if n.searchQuery = "" then n.workloads
  else
    let query := strToLower n.searchQuery
    n.workloads.filter fun w =>
      strContains (strToLower w.name) query || strContains (strToLower w.status) query

def filteredPods (n : Navigator) : List PodInfo :=
  if n.searchQuery = "" then n.pods
  else
    let query := strToLower n.searchQuery
    n.pods.filter fun p =>
      strContains (strToLower p.name) query || strContains (strToLower p.status) query ||
        strContains (strToLower p.node) query

def filteredNamespaces (n : Navigator) : List String :=
  if n.searchQuery = "" then n.namespaces
  else
    let query := strToLower n.searchQuery
    n.namespaces.filter fun ns => strContains (strToLower ns) query

def maxItems (n : Navigator) : Int :=
  match n.mode with
  | .ModeWorkloads => (n.filteredWorkloads.length : Int)
  | .ModePods => (n.filteredPods.length : Int)
  | .ModeNamespace => (n.filteredNamespaces.length : Int)
  | .ModeResourceType => (AllResourceTypes.length : Int)

def moveUp (n : Navigator) : Navigator :=
  if n.cursor > 0 then { n with cursor := n.cursor - 1 } else n

def moveDown (n : Navigator) : Navigator :=
  let mx := n.maxItems - 1
  if n.cursor < mx then { n with cursor := n.cursor + 1 } else n

def pageUp (n : Navigator) : Navigator :=
  let c := n.cursor - 10
  if c < 0 then { n with cursor := 0 } else { n with cursor := c }

def pageDown (n : Navigator) : Navigator :=
  let mx := n.maxItems - 1
  let c := n.cursor + 10
  let c := if c > mx then mx else c
  if c < 0 then { n with cursor := 0 } else { n with cursor := c }

def ClearSearch (n : Navigator) : Navigator :=
  { n with
      searchQuery := "", searchInput := "", searching := false, cursor := 0 }

def CloseSearch (n : Navigator) : Navigator :=
  { n with searching := false, searchQuery := n.searchInput }

/-- The `tea.KeyMsg` branch of `Navigator.Update`; the returned flag stands
for the `textinput.Blink` command of the search branch (the only command the
Navigator ever produces). -/
def updateKey (n : Navigator) (msg : String) : Navigator × Bool :=
  if n.searching then
    if msg = "enter" ∨ msg = "esc" then
      ({ n with searching := false, searchQuery := n.searchInput, cursor := 0 }, false)
    else
      let input := textinputUpdate n.searchInput msg
      ({ n with searchInput := input, searchQuery := input, cursor := 0 }, false)
  else if keyMatches n.keys.up msg then (n.moveUp, false)
  else if keyMatches n.keys.down msg then (n.moveDown, false)
  else if keyMatches n.keys.home msg then ({ n with cursor := 0 }, false)
  else if keyMatches n.keys.endOfList msg then
    let c := n.maxItems - 1
    (if c < 0 then { n with cursor := 0 } else { n with cursor := c }, false)
  else if keyMatches n.keys.pageUp msg then (n.pageUp, false)
  else if keyMatches n.keys.pageDown msg then (n.pageDown, false)
  else if keyMatches n.keys.search msg then
    ({ n with searching := true, searchInput := n.searchQuery }, true)
  else if keyMatches n.keys.clear msg then (n.ClearSearch, false)
  else (n, false)

structure VisibleRange where
  start : Int
  stop : Int
  deriving DecidableEq, Repr

/-- Body of `visibleRange` after `maxVisible` has been computed from the
widget height: a pure function of the total item count, the cursor, and the
number of visible rows. -/
def visibleRangeCore (total cursor maxVisible : Int) : VisibleRange :=
  if total > maxVisible then
    let start := cursor - maxVisible / 2
    let start := if start < 0 then 0 else start
    let stop := start + maxVisible
    if stop > total then
      let stop := total
      let start := stop - maxVisible
      let start := if start < 0 then 0 else start
      ⟨start, stop⟩
    else ⟨start, stop⟩
  else ⟨0, total⟩

def visibleRange (n : Navigator) (total : Int) : VisibleRange :=
  let maxVisible := n.height - 8
  let maxVisible := if maxVisible < 5 then 15 else maxVisible
  visibleRangeCore total n.cursor maxVisible

def SetWorkloads (n : Navigator) (workloads : List WorkloadInfo) : Navigator :=
  let n := { n with workloads := workloads }
  if n.cursor ≥ (n.filteredWorkloads.length : Int) then { n with cursor := 0 } else n

def SetPods (n : Navigator) (pods : List PodInfo) : Navigator :=
  { n with pods := pods, cursor := 0 }

def SetNamespaces (n : Navigator) (namespaces : List String) : Navigator :=
  { n with namespaces := namespaces }

def SetResourceType (n : Navigator) (rt : ResourceType) : Navigator :=
  { n with resourceType := rt }

def SetMode (n : Navigator) (mode : NavigatorMode) : Navigator :=
  ({ n with mode := mode, cursor := 0 } : Navigator).ClearSearch

def SetSize (n : Navigator) (width height : Int) : Navigator :=
  { n with width := width, height := height }

def SelectedWorkload (n : Navigator) : Option WorkloadInfo :=
  let workloads := n.filteredWorkloads
  if 0 ≤ n.cursor ∧ n.cursor < (workloads.length : Int) then workloads[n.cursor.toNat]?
  else none

def SelectedPod (n : Navigator) : Option PodInfo :=
  let pods := n.filteredPods
  if 0 ≤ n.cursor ∧ n.cursor < (pods.length : Int) then pods[n.cursor.toNat]?
  else none

def SelectedNamespace (n : Navigator) : String :=
  let namespaces := n.filteredNamespaces
  if 0 ≤ n.cursor ∧ n.cursor < (namespaces.length : Int) then
    (namespaces[n.cursor.toNat]?).getD ""
  else ""

def SelectedResourceType (n : Navigator) : ResourceType :=
  if 0 ≤ n.cursor ∧ n.cursor < (AllResourceTypes.length : Int) then
    (AllResourceTypes[n.cursor.toNat]?).getD .deployments
  else .deployments

def Mode (n : Navigator) : NavigatorMode := n.mode

def IsSearching (n : Navigator) : Bool := n.searching

def HasFilter (n : Navigator) : Bool := n.searchQuery ≠ ""

end Navigator

/-! ## Menus and menu item generators (internal/ui/components/action_menu.go) -/

structure MenuItem where
  label : String
  value : String
  shortcut : String
  deriving DecidableEq, Repr

structure PodActionItem where
  label : String
  description : String
  action : String
  command : String
  deriving DecidableEq, Repr

/-! ## Messages and commands

`tea.Msg` is a single dynamic type in Go; it is modelled as one closed
inductive covering every message kind the embedded components inspect. -/

inductive Msg
  | windowSize (width height : Int)
  | spinnerTick
  | loaded (workloads : List WorkloadInfo) (namespaces : List String) (err : Option String)
  | podsLoaded (pods : List PodInfo) (err : Option String)
  | dashboardData (logs : List LogLine) (events : List EventInfo)
      (metrics : Option PodMetrics) (related : Option RelatedResources)
      (helpers : List DebugHelper)
  | tick
  | key (s : String)
  | execFinished (err : Option String)
  | describeOutput (title content : String) (err : Option String)
  | actionMenuResult (item : MenuItem) (copied : Bool) (err : Option String)
  | podActionMenuResult (item : PodActionItem)
  | confirmResult (confirmed : Bool) (action : String) (data : Option PodInfo)
  | deletePodRequest (ns podName : String)
  deriving DecidableEq, Repr

/-- A `tea.Cmd`: a deferred unit of work resolving to one message.  Closures
returning a fixed message are `emit`; the asynchronous collaborator calls of
app.go and the Dashboard keep their source names. -/
inductive Cmd
  | none
  | blink
  | spinnerTick
  | quit
  | emit (msg : Msg)
  | execProcess (command : String)
  | describePod (command podName : String)
  | loadInitialData
  | loadWorkloads
  | loadPods (workload : WorkloadInfo)
  | loadDashboardData (pod : PodInfo)
  | tick (seconds : Int)
  | batch (cmds : List Cmd)

/-- Outcome of the synchronous external side effects performed inside a
message-handling step (`components.CopyToClipboard`): `none` is success. -/
structure Env where
  copyError : Option String
  deriving DecidableEq, Repr

/-! ## Viewport (bubbles library, external collaborator)

Only the operations the repository calls are modelled.  Scroll moves whose
target position depends on rendered text (`jumpToNextError`, plain
`viewport.Update` scrolling) are not tracked beyond leaving the value state
well defined. -/

structure Viewport where
  yOffset : Int
  atBottom : Bool
  deriving DecidableEq, Repr

def Viewport.gotoTop (v : Viewport) : Viewport := { v with yOffset := 0, atBottom := false }

def Viewport.gotoBottom (v : Viewport) : Viewport := { v with atBottom := true }

def Viewport.update (v : Viewport) : Viewport := v

def Viewport.jumpToNextError (v : Viewport) : Viewport := v

def NewViewport : Viewport := ⟨0, false⟩

/-! ## Content panels (internal/ui/components/logs.go, events.go,
metrics.go, manifest.go) -/

structure LogsPanel where
  logs : List LogLine
  viewport : Viewport
  following : Bool
  filter : String
  container : String
  /-- Container names handed over by `Dashboard.SetPod`. -/
  containers : List String
  /-- Modelled from the spec: the current logs panel also owns a text filter
  with input focus (`IsSearching`/`SelectedContainer`/`ShowPrevious` are
  called by the Dashboard); that revision of logs.go is not among the source
  files. -/
  searching : Bool
  selectedContainer : String
  showPrevious : Bool
  deriving DecidableEq, Repr

def NewLogsPanel : LogsPanel where
  logs := []
  viewport := NewViewport
  following := true
  filter := ""
  container := ""
  containers := []
  searching := false
  selectedContainer := ""
  showPrevious := false

namespace LogsPanel

def IsSearching (l : LogsPanel) : Bool := l.searching

def SelectedContainer (l : LogsPanel) : String := l.selectedContainer

def ShowPrevious (l : LogsPanel) : Bool := l.showPrevious

def SetLogs (l : LogsPanel) (logs : List LogLine) : LogsPanel := { l with logs := logs }

def SetContainers (l : LogsPanel) (cs : List String) : LogsPanel := { l with containers := cs }

def update (l : LogsPanel) (msg : Msg) : LogsPanel × Cmd :=
  match msg with
  | .key s =>
    if l.searching then
      if s = "esc" ∨ s = "enter" then ({ l with searching := false }, .none)
      else ({ l with filter := textinputUpdate l.filter s }, .none)
    else if s = "F" then
      let l := { l with following := !l.following }
      (if l.following then { l with viewport := l.viewport.gotoBottom } else l, .none)
    else if s = "e" then ({ l with viewport := l.viewport.jumpToNextError }, .none)
    else if s = "g" then ({ l with viewport := l.viewport.gotoTop }, .none)
    else if s = "G" then ({ l with viewport := l.viewport.gotoBottom }, .none)
    else ({ l with viewport := l.viewport.update }, .none)
  | _ => ({ l with viewport := l.viewport.update }, .none)

end LogsPanel

structure EventsPanel where
  events : List EventInfo
  viewport : Viewport
  cursor : Int
  showAll : Bool
  deriving DecidableEq, Repr

def NewEventsPanel : EventsPanel := ⟨[], NewViewport, 0, false⟩

namespace EventsPanel

def getDisplayedEvents (e : EventsPanel) : List EventInfo :=
  if e.showAll then e.events
  else e.events.filter fun event => event.type = "Warning"

def SetEvents (e : EventsPanel) (events : List EventInfo) : EventsPanel :=
  { e with events := events, cursor := 0 }

def update (e : EventsPanel) (msg : Msg) : EventsPanel × Cmd :=
  match msg with
  | .key s =>
    if s = "w" then ({ e with showAll := !e.showAll }, .none)
    else if s = "j" ∨ s = "down" then
      (if e.cursor < (e.getDisplayedEvents.length : Int) - 1 then
        { e with cursor := e.cursor + 1 } else e, .none)
    else if s = "k" ∨ s = "up" then
      (if e.cursor > 0 then { e with cursor := e.cursor - 1 } else e, .none)
    else ({ e with viewport := e.viewport.update }, .none)
  | _ => ({ e with viewport := e.viewport.update }, .none)

end EventsPanel

structure MetricsPanel where
  metrics : Option PodMetrics
  pod : Option PodInfo
  viewport : Viewport
  available : Bool
  deriving DecidableEq, Repr

def NewMetricsPanel : MetricsPanel := ⟨none, none, NewViewport, false⟩

namespace MetricsPanel

def SetMetrics (m : MetricsPanel) (metrics : Option PodMetrics) : MetricsPanel :=
  { m with metrics := metrics, available := metrics.isSome }

def SetPod (m : MetricsPanel) (pod : PodInfo) : MetricsPanel := { m with pod := some pod }

def update (m : MetricsPanel) (_ : Msg) : MetricsPanel × Cmd :=
  ({ m with viewport := m.viewport.update }, .none)

def IsAvailable (m : MetricsPanel) : Bool := m.available

end MetricsPanel

structure ManifestPanel where
  pod : Option PodInfo
  related : Option RelatedResources
  helpers : List DebugHelper
  viewport : Viewport
  showFull : Bool
  deriving DecidableEq, Repr

def NewManifestPanel : ManifestPanel := ⟨none, none, [], NewViewport, false⟩

namespace ManifestPanel

def SetPod (m : ManifestPanel) (pod : PodInfo) : ManifestPanel := { m with pod := some pod }

def SetRelated (m : ManifestPanel) (related : Option RelatedResources) : ManifestPanel :=
  { m with related := related }

def SetHelpers (m : ManifestPanel) (helpers : List DebugHelper) : ManifestPanel :=
  { m with helpers := helpers }

def update (m : ManifestPanel) (msg : Msg) : ManifestPanel × Cmd :=
  match msg with
  | .key s =>
    if s = "f" then ({ m with showFull := !m.showFull }, .none)
    else ({ m with viewport := m.viewport.update }, .none)
  | _ => ({ m with viewport := m.viewport.update }, .none)

end ManifestPanel

/-! ## Overlay components -/

/-- `HelpEntry` from the components package (its source follows the
ManifestPanel in internal/ui/components). -/
structure HelpEntry where
  key : String
  desc : String
  deriving DecidableEq, Repr

/-- `HelpPanel` from the components package: a modal widget holding the
shortcut table, its size and a visible flag.  `View` and `ShortHelp` are
rendering. -/
structure HelpPanel where
  entries : List (List HelpEntry)
  width : Int
  height : Int
  visible : Bool
  deriving DecidableEq, Repr

def defaultHelpEntries : List (List HelpEntry) :=
  [[⟨"↑/k", "move up"⟩, ⟨"↓/j", "move down"⟩, ⟨"g", "first item"⟩, ⟨"G", "last item"⟩],
   [⟨"PgUp", "page up"⟩, ⟨"PgDn", "page down"⟩, ⟨"enter", "select"⟩, ⟨"esc", "back"⟩],
   [⟨"/", "search/filter"⟩, ⟨"c", "clear filter"⟩, ⟨"r", "refresh"⟩],
   [⟨"n", "change namespace"⟩, ⟨"t", "change resource type"⟩],
   [⟨"tab", "next panel"⟩, ⟨"S-tab", "prev panel"⟩, ⟨"1-4", "focus panel"⟩],
   [⟨"f", "follow logs"⟩, ⟨"e", "next error"⟩, ⟨"w", "wrap lines"⟩, ⟨"v", "fullscreen"⟩],
   [⟨"?", "toggle help"⟩, ⟨"q", "quit"⟩]]

def NewHelpPanel : HelpPanel where
  entries := defaultHelpEntries
  width := 0
  height := 0
  visible := false

def HelpPanel.SetSize (h : HelpPanel) (width height : Int) : HelpPanel :=
  { h with width := width, height := height }

def HelpPanel.IsVisible (h : HelpPanel) : Bool := h.visible

def HelpPanel.Toggle (h : HelpPanel) : HelpPanel := { h with visible := !h.visible }

def HelpPanel.Show (h : HelpPanel) : HelpPanel := { h with visible := true }

def HelpPanel.Hide (h : HelpPanel) : HelpPanel := { h with visible := false }

/-- Modelled from the spec: the ConfirmDialog source file is not among the
source files (only its call sites in the Dashboard are).  Per the spec it is
a modal widget that `Show` opens "carrying the action kind and target
identity as an opaque payload"; a confirm key produces a
`ConfirmResult{confirmed:true}` message echoing action and payload, a cancel
key one with `confirmed:false`, both closing the dialog; while hidden it
ignores input. -/
structure ConfirmDialog where
  title : String
  message : String
  action : String
  data : Option PodInfo
  visible : Bool
  deriving DecidableEq, Repr

def NewConfirmDialog : ConfirmDialog := ⟨"", "", "", none, false⟩

namespace ConfirmDialog

def Show (c : ConfirmDialog) (title message action : String) (data : Option PodInfo) :
    ConfirmDialog :=
  { c with title := title, message := message, action := action, data := data, visible := true }

def IsVisible (c : ConfirmDialog) : Bool := c.visible

def Update (c : ConfirmDialog) (msg : Msg) : ConfirmDialog × Cmd :=
  if !c.visible then (c, .none)
  else match msg with
    | .key s =>
      if s = "y" ∨ s = "enter" then
        ({ c with visible := false }, .emit (.confirmResult true c.action c.data))
      else if s = "n" ∨ s = "esc" then
        ({ c with visible := false }, .emit (.confirmResult false c.action c.data))
      else (c, .none)
    | _ => (c, .none)

end ConfirmDialog

structure ResultViewer where
  title : String
  viewport : Viewport
  visible : Bool
  width : Int
  height : Int
  deriving DecidableEq, Repr

def NewResultViewer : ResultViewer := ⟨"", NewViewport, false, 0, 0⟩

namespace ResultViewer

def IsVisible (r : ResultViewer) : Bool := r.visible

def Show (r : ResultViewer) (title : String) (_content : String) (width height : Int) :
    ResultViewer :=
  { r with
      title := title, width := width, height := height, visible := true,
      viewport := NewViewport }

def Hide (r : ResultViewer) : ResultViewer := { r with visible := false }

def Update (r : ResultViewer) (msg : Msg) : ResultViewer × Cmd :=
  if !r.visible then (r, .none)
  else match msg with
    | .key s =>
      if s = "esc" ∨ s = "q" then ({ r with visible := false }, .none)
      else if s = "g" then ({ r with viewport := r.viewport.gotoTop }, .none)
      else if s = "G" then ({ r with viewport := r.viewport.gotoBottom }, .none)
      else ({ r with viewport := r.viewport.update }, .none)
    | _ => ({ r with viewport := r.viewport.update }, .none)

end ResultViewer

/-- Index encoded by a digit shortcut key: `some (c - '1')` for a
one-character message "1".."9" (Go checks `msg.String()[0]` against the byte
range). -/
def digitShortcut (s : String) : Option Int :=
  match s.data with
  | [c] => if '1' ≤ c ∧ c ≤ '9' then some ((c.toNat : Int) - ('1'.toNat : Int)) else none
  | _ => none

structure ActionMenu where
  title : String
  items : List MenuItem
  selected : Int
  visible : Bool
  deriving DecidableEq, Repr

def NewActionMenu : ActionMenu := ⟨"", [], 0, false⟩

namespace ActionMenu

def IsVisible (m : ActionMenu) : Bool := m.visible

def Show (m : ActionMenu) (title : String) (items : List MenuItem) : ActionMenu :=
  { m with title := title, items := items, selected := 0, visible := true }

def Hide (m : ActionMenu) : ActionMenu := { m with visible := false }

/-- `CopyToClipboard` is an external side effect; its outcome comes from the
environment. -/
def Update (env : Env) (m : ActionMenu) (msg : Msg) : ActionMenu × Cmd :=
  if !m.visible then (m, .none)
  else match msg with
    | .key s =>
      if s = "esc" ∨ s = "q" then ({ m with visible := false }, .none)
      else if s = "up" ∨ s = "k" then
        (if m.selected > 0 then { m with selected := m.selected - 1 } else m, .none)
      else if s = "down" ∨ s = "j" then
        (if m.selected < (m.items.length : Int) - 1 then
          { m with selected := m.selected + 1 } else m, .none)
      else if s = "enter" then
        if 0 ≤ m.selected ∧ m.selected < (m.items.length : Int) then
          match m.items[m.selected.toNat]? with
          | some item =>
            ({ m with visible := false }, .emit (.actionMenuResult item true env.copyError))
          | none => (m, .none)
        else (m, .none)
      else
        match digitShortcut s with
        | some idx =>
          if idx < (m.items.length : Int) then
            match m.items[idx.toNat]? with
            | some item =>
              ({ m with visible := false }, .emit (.actionMenuResult item true env.copyError))
            | none => (m, .none)
          else (m, .none)
        | none => (m, .none)
    | _ => (m, .none)

end ActionMenu

structure PodActionMenu where
  title : String
  items : List PodActionItem
  selected : Int
  visible : Bool
  deriving DecidableEq, Repr

def NewPodActionMenu : PodActionMenu := ⟨"", [], 0, false⟩

namespace PodActionMenu

def IsVisible (m : PodActionMenu) : Bool := m.visible

def Show (m : PodActionMenu) (title : String) (items : List PodActionItem) : PodActionMenu :=
  { m with title := title, items := items, selected := 0, visible := true }

def Hide (m : PodActionMenu) : PodActionMenu := { m with visible := false }

def Update (m : PodActionMenu) (msg : Msg) : PodActionMenu × Cmd :=
  if !m.visible then (m, .none)
  else match msg with
    | .key s =>
      if s = "esc" ∨ s = "q" then ({ m with visible := false }, .none)
      else if s = "up" ∨ s = "k" then
        (if m.selected > 0 then { m with selected := m.selected - 1 } else m, .none)
      else if s = "down" ∨ s = "j" then
        (if m.selected < (m.items.length : Int) - 1 then
          { m with selected := m.selected + 1 } else m, .none)
      else if s = "enter" then
        if 0 ≤ m.selected ∧ m.selected < (m.items.length : Int) then
          match m.items[m.selected.toNat]? with
          | some item => ({ m with visible := false }, .emit (.podActionMenuResult item))
          | none => (m, .none)
        else (m, .none)
      else
        match digitShortcut s with
        | some idx =>
          if idx < (m.items.length : Int) then
            match m.items[idx.toNat]? with
            | some item => ({ m with visible := false }, .emit (.podActionMenuResult item))
            | none => (m, .none)
          else (m, .none)
        | none => (m, .none)
    | _ => (m, .none)

end PodActionMenu

/-- `PodActions` from internal/ui/components/action_menu.go: the menu entry
list for the pod action menu. -/
def PodActions (ns podName : String) (containers : List String) : List PodActionItem :=
  let items := [⟨"Delete Pod", "(requires confirmation)", "delete",
    "kubectl delete pod -n " ++ ns ++ " " ++ podName⟩]
  let items := items ++
    (if containers.length = 1 then
      [⟨"Exec (sh)", "opens shell in terminal", "exec",
        "kubectl exec -it -n " ++ ns ++ " " ++ podName ++ " -- sh"⟩,
       ⟨"Exec (bash)", "opens shell in terminal", "exec",
        "kubectl exec -it -n " ++ ns ++ " " ++ podName ++ " -- bash"⟩]
    else if containers.length > 1 then
      containers.map fun container =>
        (⟨"Exec into " ++ container ++ " (sh)", "opens shell in terminal", "exec",
          "kubectl exec -it -n " ++ ns ++ " " ++ podName ++ " -c " ++ container ++ " -- sh"⟩ :
          PodActionItem)
    else [])
  let items := items ++ [⟨"Port Forward :8080", "runs in terminal, Ctrl+C to stop",
    "port-forward", "kubectl port-forward -n " ++ ns ++ " " ++ podName ++ " 8080:8080"⟩]
  let items := items ++ [⟨"Describe Pod", "shows pod details", "describe",
    "kubectl describe pod -n " ++ ns ++ " " ++ podName⟩]
  items ++ [⟨"Copy logs command", "to clipboard", "copy",
    "kubectl logs -n " ++ ns ++ " " ++ podName ++ " -f"⟩]

/-- `KubectlCommands` from internal/ui/components/action_menu.go. -/
def KubectlCommands (ns podName containerName : String) (containers : List String) :
    List MenuItem :=
  let items : List MenuItem :=
    [⟨"Get pod logs", "kubectl logs -n " ++ ns ++ " " ++ podName, ""⟩,
     ⟨"Get pod logs (follow)", "kubectl logs -n " ++ ns ++ " " ++ podName ++ " -f", ""⟩,
     ⟨"Describe pod", "kubectl describe pod -n " ++ ns ++ " " ++ podName, ""⟩,
     ⟨"Get pod YAML", "kubectl get pod -n " ++ ns ++ " " ++ podName ++ " -o yaml", ""⟩,
     ⟨"Exec into pod (sh)", "kubectl exec -it -n " ++ ns ++ " " ++ podName ++ " -- sh", ""⟩,
     ⟨"Exec into pod (bash)", "kubectl exec -it -n " ++ ns ++ " " ++ podName ++ " -- bash", ""⟩,
     ⟨"Delete pod", "kubectl delete pod -n " ++ ns ++ " " ++ podName, ""⟩]
  let items :=
    if containers.length > 1 ∧ containerName ≠ "" then
      [(⟨"Logs for container " ++ containerName,
         "kubectl logs -n " ++ ns ++ " " ++ podName ++ " -c " ++ containerName, ""⟩ : MenuItem),
       ⟨"Exec into " ++ containerName ++ " (sh)",
         "kubectl exec -it -n " ++ ns ++ " " ++ podName ++ " -c " ++ containerName ++ " -- sh",
         ""⟩] ++ items
    else items
  if containerName ≠ "" then
    items ++ [⟨"Get previous container logs",
      "kubectl logs -n " ++ ns ++ " " ++ podName ++ " -c " ++ containerName ++ " --previous", ""⟩]
  else
    match containers with
    | c :: _ => items ++ [⟨"Get previous container logs",
        "kubectl logs -n " ++ ns ++ " " ++ podName ++ " -c " ++ c ++ " --previous", ""⟩]
    | [] => items

/-! ## Dashboard (internal/ui/views/dashboard.go) -/

inductive PanelFocus
  | FocusLogs
  | FocusEvents
  | FocusMetrics
  | FocusManifest
  deriving DecidableEq, Repr

structure Dashboard where
  pod : Option PodInfo
  logs : LogsPanel
  events : EventsPanel
  metrics : MetricsPanel
  manifest : ManifestPanel
  help : HelpPanel
  actionMenu : ActionMenu
  podActionMenu : PodActionMenu
  confirmDialog : ConfirmDialog
  resultViewer : ResultViewer
  focus : PanelFocus
  fullscreen : Bool
  width : Int
  height : Int
  keys : KeyMap
  statusMsg : String
  ns : String
  context : String
  pendingAction : Option PodActionItem
  deriving Repr

def NewDashboard : Dashboard where
  pod := none
  logs := NewLogsPanel
  events := NewEventsPanel
  metrics := NewMetricsPanel
  manifest := NewManifestPanel
  help := NewHelpPanel
  actionMenu := NewActionMenu
  podActionMenu := NewPodActionMenu
  confirmDialog := NewConfirmDialog
  resultViewer := NewResultViewer
  focus := .FocusLogs
  fullscreen := false
  width := 0
  height := 0
  keys := DefaultKeyMap
  statusMsg := ""
  ns := ""
  context := ""
  pendingAction := none

namespace Dashboard

/-- `(d.focus + 1) % 4`. -/
def nextPanel (d : Dashboard) : Dashboard :=
  { d with focus := match d.focus with
    | .FocusLogs => .FocusEvents
    | .FocusEvents => .FocusMetrics
    | .FocusMetrics => .FocusManifest
    | .FocusManifest => .FocusLogs }

/-- `(d.focus + 3) % 4`. -/
def prevPanel (d : Dashboard) : Dashboard :=
  { d with focus := match d.focus with
    | .FocusLogs => .FocusManifest
    | .FocusEvents => .FocusLogs
    | .FocusMetrics => .FocusEvents
    | .FocusManifest => .FocusMetrics }

def HasActiveOverlay (d : Dashboard) : Bool :=
  d.resultViewer.IsVisible || d.confirmDialog.IsVisible || d.podActionMenu.IsVisible ||
    d.actionMenu.IsVisible || d.help.IsVisible

/-- The focused-panel dispatch at the bottom of `Dashboard.Update`. -/
def focusDispatch (d : Dashboard) (msg : Msg) : Dashboard × Cmd :=
  match d.focus with
  | .FocusLogs =>
    let r := d.logs.update msg
    ({ d with logs := r.1 }, .batch [r.2])
  | .FocusEvents =>
    let r := d.events.update msg
    ({ d with events := r.1 }, .batch [r.2])
  | .FocusMetrics =>
    let r := d.metrics.update msg
    ({ d with metrics := r.1 }, .batch [r.2])
  | .FocusManifest =>
    let r := d.manifest.update msg
    ({ d with manifest := r.1 }, .batch [r.2])

/-- The `PodActionMenuResult` branch of `Dashboard.Update`.  `d.pod` is
dereferenced unconditionally in the source; the pod action menu is only ever
opened while a pod is set. -/
def handlePodAction (env : Env) (d : Dashboard) (item : PodActionItem) : Dashboard × Cmd :=
  if item.action = "delete" then
    match d.pod with
    | some pod =>
      ({ d with confirmDialog := (d.confirmDialog.Show "Delete Pod"
          ("Are you sure you want to delete pod " ++ pod.name ++ "?") "delete" (some pod)) },
       .none)
    | none => (d, .none)
  else if item.action = "exec" then
    match d.pod with
    | some pod =>
      ({ d with
          pendingAction := some item,
          confirmDialog := (d.confirmDialog.Show "Exec into Pod"
            ("Open shell in " ++ pod.name ++
              "?\nThis will suspend the UI until you exit the shell.") "exec" (some pod)) },
       .none)
    | none => (d, .none)
  else if item.action = "port-forward" then
    match d.pod with
    | some pod =>
      ({ d with
          pendingAction := some item,
          confirmDialog := (d.confirmDialog.Show "Port Forward"
            ("Start port forwarding for " ++ pod.name ++
              "?\nPress Ctrl+C in terminal to stop and return.") "port-forward" (some pod)) },
       .none)
    | none => (d, .none)
  else if item.action = "describe" then
    match d.pod with
    | some pod =>
      ({ d with statusMsg := "Loading describe..." }, .describePod item.command pod.name)
    | none => (d, .none)
  else if item.action = "copy" then
    match env.copyError with
    | none => ({ d with statusMsg := "Copied: " ++ item.label }, .none)
    | some e => ({ d with statusMsg := "Copy failed: " ++ e }, .none)
  else (d, .none)

/-- The `ConfirmResult` branch of `Dashboard.Update`. -/
def handleConfirm (d : Dashboard) (confirmed : Bool) (action : String) (data : Option PodInfo) :
    Dashboard × Cmd :=
  if confirmed then
    if action = "delete" then
      match data with
      | some pod =>
        ({ d with statusMsg := "Deleting pod..." },
         .emit (.deletePodRequest pod.ns pod.name))
      | none => (d, .none)
    else if action = "exec" ∨ action = "port-forward" then
      match d.pendingAction with
      | some pa => ({ d with pendingAction := none }, .execProcess pa.command)
      | none => (d, .none)
    else (d, .none)
  else ({ d with pendingAction := none }, .none)

/-- The dashboard-level key handling that follows the status-message clear
in the `tea.KeyMsg` branch of `Dashboard.Update`. -/
def updateKeyGlobal (_env : Env) (d : Dashboard) (s : String) : Dashboard × Cmd :=
  if keyMatches d.keys.podActions s then
    (match d.pod with
     | some pod =>
       let containers := pod.containers.map (fun c => c.name)
       let items := PodActions d.ns pod.name containers
       ({ d with podActionMenu := d.podActionMenu.Show "Pod Actions" items }, Cmd.none)
     | none => (d, Cmd.none))
  else if keyMatches d.keys.copyCommands s then
    (match d.pod with
     | some pod =>
       let containers := pod.containers.map (fun c => c.name)
       let items := KubectlCommands d.ns pod.name d.logs.SelectedContainer containers
       ({ d with actionMenu := d.actionMenu.Show "Copy kubectl command" items }, Cmd.none)
     | none => (d, Cmd.none))
  else if keyMatches d.keys.help s then ({ d with help := d.help.Toggle }, .none)
  else if keyMatches d.keys.nextPanel s then (d.nextPanel, .none)
  else if keyMatches d.keys.prevPanel s then (d.prevPanel, .none)
  else if keyMatches d.keys.panel1 s then ({ d with focus := .FocusLogs }, .none)
  else if keyMatches d.keys.panel2 s then ({ d with focus := .FocusEvents }, .none)
  else if keyMatches d.keys.panel3 s then ({ d with focus := .FocusMetrics }, .none)
  else if keyMatches d.keys.panel4 s then ({ d with focus := .FocusManifest }, .none)
  else if keyMatches d.keys.toggleFullView s then
    ({ d with fullscreen := !d.fullscreen }, .none)
  else focusDispatch d (.key s)

/-- The `tea.KeyMsg` branch of `Dashboard.Update`: overlay priority routing,
then the logs search input, then (after clearing the status message) the
dashboard-level keys and the focused panel. -/
def updateKey (env : Env) (d : Dashboard) (s : String) : Dashboard × Cmd :=
  if d.confirmDialog.IsVisible then
    let r := d.confirmDialog.Update (.key s)
    ({ d with confirmDialog := r.1 }, r.2)
  else if d.resultViewer.IsVisible then
    let r := d.resultViewer.Update (.key s)
    ({ d with resultViewer := r.1 }, r.2)
  else if d.podActionMenu.IsVisible then
    let r := d.podActionMenu.Update (.key s)
    ({ d with podActionMenu := r.1 }, r.2)
  else if d.actionMenu.IsVisible then
    let r := ActionMenu.Update env d.actionMenu (.key s)
    ({ d with actionMenu := r.1 }, r.2)
  else if d.help.IsVisible then
    if s = "?" ∨ s = "esc" then ({ d with help := d.help.Hide }, .none)
    else (d, .none)
  else if d.focus = .FocusLogs ∧ d.logs.IsSearching then
    let r := d.logs.update (.key s)
    ({ d with logs := r.1 }, r.2)
  else
    updateKeyGlobal env { d with statusMsg := "" } s

def Update (env : Env) (d : Dashboard) (msg : Msg) : Dashboard × Cmd :=
  match msg with
  | .execFinished err =>
    (match err with
     | some e => { d with statusMsg := "Command failed: " ++ e }
     | none => { d with statusMsg := "Command completed" }, .none)
  | .describeOutput title content err =>
    (match err with
     | some e => ({ d with statusMsg := "Describe failed: " ++ e }, Cmd.none)
     | none =>
       ({ d with resultViewer :=
           (d.resultViewer.Show title content (d.width - 4) (d.height - 4)) }, Cmd.none))
  | .actionMenuResult item copied err =>
    if copied ∧ err = none then ({ d with statusMsg := "Copied: " ++ item.label }, .none)
    else
      match err with
      | some e => ({ d with statusMsg := "Copy failed: " ++ e }, .none)
      | none => (d, .none)
  | .podActionMenuResult item => handlePodAction env d item
  | .confirmResult confirmed action data => handleConfirm d confirmed action data
  | .key s => updateKey env d s
  | _ => focusDispatch d msg

def SetPod (d : Dashboard) (pod : PodInfo) : Dashboard :=
  { d with
           pod := some pod,
           manifest := d.manifest.SetPod pod,
           metrics := d.metrics.SetPod pod,
           logs := d.logs.SetContainers (pod.containers.map fun c => c.name) }

def SetLogs (d : Dashboard) (logs : List LogLine) : Dashboard :=
  { d with logs := d.logs.SetLogs logs }

def SetEvents (d : Dashboard) (events : List EventInfo) : Dashboard :=
  { d with events := d.events.SetEvents events }

def SetMetrics (d : Dashboard) (metrics : Option PodMetrics) : Dashboard :=
  { d with metrics := d.metrics.SetMetrics metrics }

def SetRelated (d : Dashboard) (related : Option RelatedResources) : Dashboard :=
  { d with manifest := d.manifest.SetRelated related }

def SetHelpers (d : Dashboard) (helpers : List DebugHelper) : Dashboard :=
  { d with manifest := d.manifest.SetHelpers helpers }

def SetSize (d : Dashboard) (width height : Int) : Dashboard :=
  { d with width := width, height := height, help := d.help.SetSize width height }

def SetContext (d : Dashboard) (ctx : String) : Dashboard := { d with context := ctx }

def SetNamespace (d : Dashboard) (ns : String) : Dashboard := { d with ns := ns }

def Focus (d : Dashboard) : PanelFocus := d.focus

def HelpVisible (d : Dashboard) : Bool := d.help.IsVisible

def GetPod (d : Dashboard) : Option PodInfo := d.pod

def IsLogsSearching (d : Dashboard) : Bool := d.logs.IsSearching

end Dashboard

/-- The Go `string(rt)` conversion of a resource type. -/
def ResourceType.toStr : ResourceType → String
  | .pods => "pods"
  | .deployments => "deployments"
  | .statefulsets => "statefulsets"
  | .daemonsets => "daemonsets"
  | .jobs => "jobs"
  | .cronjobs => "cronjobs"

/-- The non-key branch of `Navigator.Update` ignores the message; the key
branch is `updateKey`, whose blink flag becomes the `textinput.Blink`
command. -/
def Navigator.Update (n : Navigator) (msg : Msg) : Navigator × Cmd :=
  match msg with
  | .key s =>
    let r := n.updateKey s
    (r.1, if r.2 then .blink else .none)
  | _ => (n, .none)

/-! ## Root Controller (internal/app/app.go) -/

inductive ViewState
  | ViewNavigator
  | ViewDashboard
  deriving DecidableEq, Repr

structure Config where
  lastNamespace : String
  lastResourceType : String
  refreshInterval : Int
  deriving DecidableEq, Repr

/-- The cluster client state the controller reads and writes (namespace and
context selection); the client's network operations are the asynchronous
commands. -/
structure K8sClient where
  ns : String
  context : String
  deriving DecidableEq, Repr

def K8sClient.SetNamespace (c : K8sClient) (ns : String) : K8sClient := { c with ns := ns }

def K8sClient.Namespace (c : K8sClient) : String := c.ns

def K8sClient.Context (c : K8sClient) : String := c.context

structure Model where
  k8sClient : K8sClient
  config : Config
  navigator : Navigator
  dashboard : Dashboard
  help : HelpPanel
  view : ViewState
  width : Int
  height : Int
  loading : Bool
  err : Option String
  keys : KeyMap
  workload : Option WorkloadInfo
  pod : Option PodInfo
  deriving Repr

def NewModel (client : K8sClient) (cfg : Config) : Model where
  k8sClient := client.SetNamespace cfg.lastNamespace
  config := cfg
  navigator := NewNavigator
  dashboard := NewDashboard
  help := NewHelpPanel
  view := .ViewNavigator
  width := 0
  height := 0
  loading := true
  err := none
  keys := DefaultKeyMap
  workload := none
  pod := none

namespace Model

def Init (_ : Model) : Cmd := .batch [.spinnerTick, .loadInitialData]

def tickCmd (m : Model) : Cmd := .tick m.config.refreshInterval

def refresh (m : Model) : Model × Cmd :=
  match m.view with
  | .ViewNavigator => ({ m with loading := true }, .loadWorkloads)
  | .ViewDashboard =>
    match m.pod with
    | some pod => ({ m with loading := true }, .loadDashboardData pod)
    | none => (m, .none)

def handleBack (m : Model) : Model × Cmd :=
  match m.view with
  | .ViewDashboard =>
    let m := { m with view := .ViewNavigator, pod := none }
    (match m.workload with
     | some _ => { m with navigator := m.navigator.SetMode .ModePods }
     | none => { m with navigator := m.navigator.SetMode .ModeWorkloads }, .none)
  | .ViewNavigator =>
    match m.navigator.Mode with
    | .ModePods =>
      ({ m with navigator := m.navigator.SetMode .ModeWorkloads, workload := none },
       .loadWorkloads)
    | .ModeNamespace => ({ m with navigator := m.navigator.SetMode .ModeWorkloads }, .none)
    | .ModeResourceType => ({ m with navigator := m.navigator.SetMode .ModeWorkloads }, .none)
    | .ModeWorkloads => (m, .none)

def handleEnter (m : Model) : Model × Cmd :=
  match m.view with
  | .ViewNavigator =>
    match m.navigator.Mode with
    | .ModeWorkloads =>
      (match m.navigator.SelectedWorkload with
       | some workload =>
         ({ m with workload := some workload, loading := true }, .loadPods workload)
       | none => (m, .none))
    | .ModePods =>
      (match m.navigator.SelectedPod with
       | some pod =>
         let dashboard := ((m.dashboard.SetPod pod).SetContext
           m.k8sClient.Context).SetNamespace m.k8sClient.Namespace
         ({ m with
             pod := some pod, view := .ViewDashboard, dashboard := dashboard,
             loading := true },
          .batch [.loadDashboardData pod, m.tickCmd])
       | none => (m, .none))
    | .ModeNamespace =>
      let ns := m.navigator.SelectedNamespace
      if ns ≠ "" then
        ({ m with
            k8sClient := m.k8sClient.SetNamespace ns,
            config := { m.config with lastNamespace := ns },
            navigator := m.navigator.SetMode .ModeWorkloads,
            loading := true },
         .loadWorkloads)
      else (m, .none)
    | .ModeResourceType =>
      let rt := m.navigator.SelectedResourceType
      ({ m with
          navigator := (m.navigator.SetResourceType rt).SetMode .ModeWorkloads,
          config := { m.config with lastResourceType := rt.toStr },
          loading := true },
       .loadWorkloads)
  | .ViewDashboard => (m, .none)

/-- The per-view dispatch at the bottom of `Model.Update`. -/
def viewDispatch (env : Env) (m : Model) (msg : Msg) : Model × Cmd :=
  match m.view with
  | .ViewNavigator =>
    if !m.navigator.IsSearching &&
        (match msg with | .key s => keyMatches m.keys.resourceType s | _ => false) then
      ({ m with navigator := m.navigator.SetMode .ModeResourceType }, .none)
    else
      let r := m.navigator.Update msg
      ({ m with navigator := r.1 }, .batch [r.2])
  | .ViewDashboard =>
    let r := Dashboard.Update env m.dashboard msg
    ({ m with dashboard := r.1 }, .batch [r.2])

/-- The `tea.KeyMsg` branch of `Model.Update`: the help overlay, then the
searching navigator, then the global keys, then the per-view dispatch. -/
def updateKey (env : Env) (m : Model) (s : String) : Model × Cmd :=
  if m.help.IsVisible then
    if s = "?" ∨ s = "esc" then ({ m with help := m.help.Hide }, .none)
    else (m, .none)
  else if m.view = .ViewNavigator ∧ m.navigator.IsSearching then
    if s = "esc" then ({ m with navigator := m.navigator.CloseSearch }, .none)
    else if s = "enter" then ({ m with navigator := m.navigator.CloseSearch }, .none)
    else if s = "ctrl+c" then (m, .quit)
    else
      let r := m.navigator.Update (.key s)
      ({ m with navigator := r.1 }, r.2)
  else if keyMatches m.keys.quit s then (m, .quit)
  else if keyMatches m.keys.help s then ({ m with help := m.help.Toggle }, .none)
  else if keyMatches m.keys.refresh s then m.refresh
  else if keyMatches m.keys.nsSelect s then
    if m.view = .ViewNavigator then
      ({ m with navigator := m.navigator.SetMode .ModeNamespace }, .none)
    else viewDispatch env m (.key s)
  else if keyMatches m.keys.back s then m.handleBack
  else if keyMatches m.keys.enter s then m.handleEnter
  else viewDispatch env m (.key s)

/-- `Model.Update`: the single message-handling step of the event loop.
`m.saveConfig()` before quitting is a preference-store side effect carried by
the `quit` command. -/
def Update (env : Env) (m : Model) (msg : Msg) : Model × Cmd :=
  match msg with
  | .windowSize w h =>
    ({ m with
        width := w, height := h,
        navigator := m.navigator.SetSize w (h - 2),
        dashboard := m.dashboard.SetSize w (h - 2),
        help := m.help.SetSize w h },
     .none)
  | .spinnerTick => (m, .spinnerTick)
  | .loaded workloads namespaces err =>
    let m := { m with loading := false }
    (match err with
     | some e => ({ m with err := some e }, Cmd.none)
     | none =>
       ({ m with navigator := (m.navigator.SetWorkloads workloads).SetNamespaces namespaces },
        Cmd.none))
  | .podsLoaded pods err =>
    let m := { m with loading := false }
    (match err with
     | some e => ({ m with err := some e }, Cmd.none)
     | none =>
       ({ m with navigator := (m.navigator.SetPods pods).SetMode .ModePods }, Cmd.none))
  | .dashboardData logs events metrics related helpers =>
    ({ m with
        loading := false,
        dashboard := ((((m.dashboard.SetLogs logs).SetEvents events).SetMetrics
          metrics).SetRelated related).SetHelpers helpers },
     .none)
  | .tick =>
    (match m.view, m.pod with
     | .ViewDashboard, some pod => (m, .batch [.loadDashboardData pod, m.tickCmd])
     | _, _ => (m, m.tickCmd))
  | .key s => updateKey env m s
  | _ => viewDispatch env m msg

/-- The structure of `Model.View`: which screen is rendered.  The textual
content of each screen is presentation. -/
inductive Screen
  | error (message : String)
  | loading
  | helpModal
  | navigator
  | dashboard
  deriving DecidableEq, Repr

def View (m : Model) : Screen :=
  match m.err with
  | some e => .error e
  | none =>
    if m.loading then .loading
    else if m.help.IsVisible then .helpModal
    else
      match m.view with
      | .ViewNavigator => .navigator
      | .ViewDashboard => .dashboard

end Model

/-! ## Definitions supporting the verification -/

/-- Whether a command (directly or inside a batch) emits a
`DeletePodRequest` message. -/
def Cmd.emitsDeleteRequest : Cmd → Bool
  | .emit (.deletePodRequest _ _) => true
  | .batch cs => go cs
  | _ => false
where
  go : List Cmd → Bool
  | [] => false
  | c :: cs => c.emitsDeleteRequest || go cs

/-- The public Navigator operations named by the cursor invariant: a key
message (cursor movement and search keystrokes route through
`Navigator.updateKey`), `SetMode`, and the three collection setters. -/
inductive NavOp
  | key (s : String)
  | setMode (mode : NavigatorMode)
  | setWorkloads (workloads : List WorkloadInfo)
  | setPods (pods : List PodInfo)
  | setNamespaces (namespaces : List String)
  deriving Repr

def applyNavOp (n : Navigator) : NavOp → Navigator
  | .key s => (n.updateKey s).1
  | .setMode mode => n.SetMode mode
  | .setWorkloads ws => n.SetWorkloads ws
  | .setPods ps => n.SetPods ps
  | .setNamespaces nss => n.SetNamespaces nss

/-- The cursor invariant of the spec: inside `[0, len-1]` of the current
mode's filtered collection when it is non-empty, and exactly 0 when it is
empty. -/
@[reducible] def cursorInv (n : Navigator) : Prop :=
  (n.maxItems = 0 → n.cursor = 0) ∧
    (n.maxItems ≠ 0 → 0 ≤ n.cursor ∧ n.cursor ≤ n.maxItems - 1)

/-- Sample data for concrete witnesses. -/
def samplePod : PodInfo :=
  ⟨"web-7f9", "default", "node-1", "Running", "1/1", 0, "2d", "10.0.0.7", [⟨"app", "nginx"⟩]⟩

def sampleWorkload : WorkloadInfo :=
  ⟨"web", "default", .deployments, "1/1", 1, "2d", "Running"⟩

def sampleEnv : Env := ⟨none⟩

def sampleConfig : Config := ⟨"default", "deployments", 5⟩

def sampleDashboard : Dashboard := NewDashboard.SetPod samplePod

def sampleModel : Model := NewModel ⟨"default", "minikube"⟩ sampleConfig

def sampleModelViewing : Model :=
  { sampleModel with
      view := .ViewDashboard, pod := some samplePod, workload := some sampleWorkload,
      loading := false }

/-- An operation sequence exercising `SetNamespaces` after cursor movement
in NamespaceSelect mode. -/
def c6ops : List NavOp :=
  [.setNamespaces ["default", "kube-system", "monitoring"], .setMode .ModeNamespace,
   .key "j", .key "j", .setNamespaces ["default"]]

def c9nav : Navigator := { NewNavigator with mode := .ModeResourceType, searchQuery := "zzz" }

def c10nav : Navigator := { NewNavigator with cursor := 7 }

def itemDelete : PodActionItem :=
  ⟨"Delete Pod", "(requires confirmation)", "delete", "kubectl delete pod -n default web-7f9"⟩

def itemExec : PodActionItem :=
  ⟨"Exec (sh)", "opens shell in terminal", "exec", "kubectl exec -it -n default web-7f9 -- sh"⟩

def itemCopy : PodActionItem :=
  ⟨"Copy logs command", "to clipboard", "copy", "kubectl logs -n default web-7f9 -f"⟩

def itemDescribe : PodActionItem :=
  ⟨"Describe Pod", "shows pod details", "describe", "kubectl describe pod -n default web-7f9"⟩

/-- A dashboard whose confirm dialog and pod-action menu both report
visible. -/
def dashConfirm : Dashboard :=
  { sampleDashboard with
      confirmDialog := sampleDashboard.confirmDialog.Show "Delete Pod" "sure?" "delete"
        (some samplePod),
      podActionMenu := sampleDashboard.podActionMenu.Show "Pod Actions" [itemDelete] }

/-- A model whose navigator text filter has input focus. -/
def searchingModel : Model :=
  { sampleModel with
      loading := false,
      navigator := { sampleModel.navigator with searching := true, searchInput := "ngin" } }

/-- The model after a pods-load failure. -/
def erroredModel : Model :=
  (Model.Update sampleEnv { sampleModel with loading := false }
    (.podsLoaded [] (some "connection refused"))).1

/-! ## Theorems -/

/-- C8: the Navigator's visible window is a pure function of the total item
count, the cursor position, and the viewport height (the number of visible
rows, which `visibleRange` derives from the widget height as
`height - 8`, floored to 15 when below 5): the window is centered on the
cursor and then clamped so it never runs past either bound of `[0, total)`;
in particular total=50, cursor=25, height=10 gives `[20,30)` and total=10,
cursor=0, height=20 gives `[0,10)`. -/
theorem navigator_visible_window_c8 :
    (∀ (n : Navigator) (total : Int),
      n.visibleRange total =
        Navigator.visibleRangeCore total n.cursor
          (if n.height - 8 < 5 then 15 else n.height - 8))
    ∧ (∀ total cursor maxVisible : Int,
        0 ≤ (Navigator.visibleRangeCore total cursor maxVisible).start ∧
        (Navigator.visibleRangeCore total cursor maxVisible).stop ≤ total)
    ∧ Navigator.visibleRangeCore 50 25 10 = ⟨20, 30⟩
    ∧ Navigator.visibleRangeCore 10 0 20 = ⟨0, 10⟩ := by
  refine ⟨fun n total => rfl, fun total cursor maxVisible => ?_, by decide, by decide⟩
  constructor <;>
    (unfold Navigator.visibleRangeCore; dsimp only; split_ifs <;> (dsimp only; omega))

/-- C9: the Navigator filter is a case-insensitive substring match against a
mode-specific composite key — a workload is kept iff its name or status
contains the query, a pod iff its name, status or node contains it, a
namespace iff its name contains it; the resource-type collection is never
filtered (its item count ignores the query); with an empty query each
filtered collection equals the raw one. -/
theorem navigator_filter_semantics_c9 :
    (∀ (n : Navigator) (w : WorkloadInfo),
       w ∈ n.filteredWorkloads ↔ w ∈ n.workloads ∧
         (n.searchQuery = "" ∨
           strContains (strToLower w.name) (strToLower n.searchQuery) = true ∨
           strContains (strToLower w.status) (strToLower n.searchQuery) = true))
    ∧ (∀ (n : Navigator) (p : PodInfo),
       p ∈ n.filteredPods ↔ p ∈ n.pods ∧
         (n.searchQuery = "" ∨
           strContains (strToLower p.name) (strToLower n.searchQuery) = true ∨
           strContains (strToLower p.status) (strToLower n.searchQuery) = true ∨
           strContains (strToLower p.node) (strToLower n.searchQuery) = true))
    ∧ (∀ (n : Navigator) (ns : String),
       ns ∈ n.filteredNamespaces ↔ ns ∈ n.namespaces ∧
         (n.searchQuery = "" ∨
           strContains (strToLower ns) (strToLower n.searchQuery) = true))
    ∧ (∀ n : Navigator, n.mode = .ModeResourceType →
        n.maxItems = (AllResourceTypes.length : Int))
    ∧ (∀ n : Navigator, n.searchQuery = "" →
        n.filteredWorkloads = n.workloads ∧ n.filteredPods = n.pods ∧
          n.filteredNamespaces = n.namespaces) := by
  refine ⟨fun n w => ?_, fun n p => ?_, fun n ns => ?_, fun n h => ?_, fun n h => ?_⟩
  · unfold Navigator.filteredWorkloads
    split
    · rename_i h
      simp [h]
    · rename_i h
      simp [List.mem_filter, h, and_comm, or_comm]
  · unfold Navigator.filteredPods
    split
    · rename_i h
      simp [h]
    · rename_i h
      simp [List.mem_filter, h]
      tauto
  · unfold Navigator.filteredNamespaces
    split
    · rename_i h
      simp [h]
    · rename_i h
      simp [List.mem_filter, h]
  · unfold Navigator.maxItems
    rw [h]
  · exact ⟨by unfold Navigator.filteredWorkloads; rw [if_pos h],
      by unfold Navigator.filteredPods; rw [if_pos h],
      by unfold Navigator.filteredNamespaces; rw [if_pos h]⟩

/-- C10: the Navigator selection accessors are total — with the cursor
outside the bounds of the corresponding filtered collection,
`SelectedWorkload` and `SelectedPod` return `none`, `SelectedNamespace`
returns the empty string and `SelectedResourceType` the deployments default;
an in-bounds cursor yields an element of the filtered collection, so no
accessor ever indexes out of bounds. -/
theorem navigator_selection_total_c10 :
    ∀ n : Navigator,
      (¬(0 ≤ n.cursor ∧ n.cursor < (n.filteredWorkloads.length : Int)) →
        n.SelectedWorkload = none)
      ∧ (¬(0 ≤ n.cursor ∧ n.cursor < (n.filteredPods.length : Int)) → n.SelectedPod = none)
      ∧ (¬(0 ≤ n.cursor ∧ n.cursor < (n.filteredNamespaces.length : Int)) →
          n.SelectedNamespace = "")
      ∧ (¬(0 ≤ n.cursor ∧ n.cursor < (AllResourceTypes.length : Int)) →
          n.SelectedResourceType = .deployments)
      ∧ (∀ w, n.SelectedWorkload = some w → w ∈ n.filteredWorkloads)
      ∧ (∀ p, n.SelectedPod = some p → p ∈ n.filteredPods) := by
  intro n
  refine ⟨fun h => ?_, fun h => ?_, fun h => ?_, fun h => ?_, fun w hw => ?_, fun p hp => ?_⟩
  · unfold Navigator.SelectedWorkload
    exact if_neg h
  · unfold Navigator.SelectedPod
    exact if_neg h
  · unfold Navigator.SelectedNamespace
    exact if_neg h
  · unfold Navigator.SelectedResourceType
    exact if_neg h
  · unfold Navigator.SelectedWorkload at hw
    dsimp only at hw
    split at hw
    · exact List.getElem?_mem hw
    · exact absurd hw (by simp)
  · unfold Navigator.SelectedPod at hp
    dsimp only at hp
    split at hp
    · exact List.getElem?_mem hp
    · exact absurd hp (by simp)

theorem maxItems_nonneg (n : Navigator) : 0 ≤ n.maxItems := by
  unfold Navigator.maxItems
  split <;> exact Int.natCast_nonneg _

theorem cursorInv_zero (n : Navigator) (h : n.cursor = 0) : cursorInv n := by
  refine ⟨fun _ => h, fun hm => ?_⟩
  have h0 := maxItems_nonneg n
  rw [h]
  omega

theorem maxItems_set_cursor (n : Navigator) (c : Int) :
    ({ n with cursor := c } : Navigator).maxItems = n.maxItems := rfl

theorem cursorInv_set_cursor (n : Navigator) (c : Int)
    (h : (0 ≤ c ∧ c ≤ n.maxItems - 1) ∨ (n.maxItems = 0 ∧ c = 0)) :
    cursorInv { n with cursor := c } := by
  have h0 := maxItems_nonneg n
  refine ⟨fun hm => ?_, fun hm => ?_⟩ <;> rw [maxItems_set_cursor] at hm
  · show c = 0
    omega
  · show 0 ≤ c ∧ c ≤ n.maxItems - 1
    omega

theorem cursorInv_moveUp (n : Navigator) (h : cursorInv n) : cursorInv n.moveUp := by
  unfold Navigator.moveUp
  obtain ⟨h1, h2⟩ := h
  have h0 := maxItems_nonneg n
  split
  · rename_i hc
    refine cursorInv_set_cursor n _ ?_
    by_cases hm : n.maxItems = 0
    · have := h1 hm
      omega
    · have := h2 hm
      omega
  · exact ⟨h1, h2⟩

theorem cursorInv_moveDown (n : Navigator) (h : cursorInv n) : cursorInv n.moveDown := by
  unfold Navigator.moveDown
  dsimp only
  obtain ⟨h1, h2⟩ := h
  have h0 := maxItems_nonneg n
  split
  · rename_i hc
    refine cursorInv_set_cursor n _ ?_
    by_cases hm : n.maxItems = 0
    · have := h1 hm
      omega
    · have := h2 hm
      omega
  · exact ⟨h1, h2⟩

theorem cursorInv_pageUp (n : Navigator) (h : cursorInv n) : cursorInv n.pageUp := by
  unfold Navigator.pageUp
  dsimp only
  obtain ⟨h1, h2⟩ := h
  have h0 := maxItems_nonneg n
  split <;> rename_i hc <;> refine cursorInv_set_cursor n _ ?_ <;>
    by_cases hm : n.maxItems = 0 <;>
    first
      | (have hx := h1 hm; omega)
      | (have hx := h2 hm; omega)

theorem cursorInv_pageDown (n : Navigator) (h : cursorInv n) : cursorInv n.pageDown := by
  unfold Navigator.pageDown
  dsimp only
  obtain ⟨h1, h2⟩ := h
  have h0 := maxItems_nonneg n
  split <;> rename_i hc <;> split <;> rename_i hc2 <;>
    refine cursorInv_set_cursor n _ ?_ <;>
    by_cases hm : n.maxItems = 0 <;>
    first
      | (have hx := h1 hm; omega)
      | (have hx := h2 hm; omega)

theorem cursorInv_SetWorkloads (n : Navigator) (ws : List WorkloadInfo) (h : cursorInv n) :
    cursorInv (n.SetWorkloads ws) := by
  unfold Navigator.SetWorkloads
  dsimp only
  split
  · exact cursorInv_zero _ rfl
  · rename_i hc
    obtain ⟨h1, h2⟩ := h
    have h0 := maxItems_nonneg n
    have hcur : 0 ≤ n.cursor := by
      by_cases hm : n.maxItems = 0
      · rw [h1 hm]
      · exact (h2 hm).1
    obtain ⟨wl, po, nss, cur, mode, wd, ht, si, sg, sq, rt, km⟩ := n
    cases mode <;>
      simp only [Navigator.maxItems, Navigator.filteredWorkloads, Navigator.filteredPods,
        Navigator.filteredNamespaces, cursorInv, not_le, ge_iff_le] at h1 h2 hc h0 hcur ⊢ <;>
      constructor <;> intro hm <;> omega

theorem cursorInv_updateKey (n : Navigator) (s : String) (h : cursorInv n) :
    cursorInv (n.updateKey s).1 := by
  unfold Navigator.updateKey
  split
  · split <;> exact cursorInv_zero _ rfl
  · split
    · exact cursorInv_moveUp n h
    split
    · exact cursorInv_moveDown n h
    split
    · exact cursorInv_zero _ rfl
    split
    · have h0 := maxItems_nonneg n
      dsimp only
      split
      · exact cursorInv_zero _ rfl
      · rename_i hc
        refine cursorInv_set_cursor n _ ?_
        omega
    split
    · exact cursorInv_pageUp n h
    split
    · exact cursorInv_pageDown n h
    split
    · exact h
    split
    · exact cursorInv_zero _ rfl
    exact h

/-- C6 (amended): starting from the freshly constructed Navigator, every
public operation except `SetNamespaces` — key handling (cursor movement and
search keystrokes), `SetMode`, `SetWorkloads` and `SetPods` — preserves the
cursor invariant: the cursor lies in `[0, len(filteredCollection)-1]` of the
current mode when that collection is non-empty and equals 0 when it is
empty.  `SetNamespaces` does not re-clamp the cursor and can break the
invariant. -/
theorem navigator_cursor_invariant_c6 :
    cursorInv NewNavigator ∧
    (∀ (n : Navigator) (op : NavOp), cursorInv n →
      (∀ nss, op ≠ NavOp.setNamespaces nss) → cursorInv (applyNavOp n op)) := by
  constructor
  · exact cursorInv_zero _ rfl
  · rintro n op h hop
    cases op with
    | key s => exact cursorInv_updateKey n s h
    | setMode mode => exact cursorInv_zero _ rfl
    | setWorkloads ws => exact cursorInv_SetWorkloads n ws h
    | setPods ps => exact cursorInv_zero _ rfl
    | setNamespaces nss => exact absurd rfl (hop nss)

theorem navigator_cursor_invariant_c6_witness :
    cursorInv (applyNavOp NewNavigator (NavOp.key "j")) :=
  navigator_cursor_invariant_c6.2 NewNavigator (NavOp.key "j") (by decide)
    (fun nss h => by cases h)

/-- C6 counterexample: through the public operations — namespaces loaded,
NamespaceSelect mode entered, the cursor moved down twice, then a shorter
namespace list set — the cursor (2) ends up outside the bounds of the
one-element filtered namespace collection, refuting the claim that the
invariant holds for every state reachable through the public operations
including `SetNamespaces`. -/
theorem navigator_cursor_invariant_c6_counterexample :
    ¬ cursorInv (c6ops.foldl applyNavOp NewNavigator) := by decide

theorem logsPanel_update_snd (l : LogsPanel) (msg : Msg) : (l.update msg).2 = Cmd.none := by
  unfold LogsPanel.update
  cases msg <;> dsimp only <;> (try rfl) <;> split_ifs <;> rfl

theorem eventsPanel_update_snd (e : EventsPanel) (msg : Msg) : (e.update msg).2 = Cmd.none := by
  unfold EventsPanel.update
  cases msg <;> dsimp only <;> (try rfl) <;> split_ifs <;> rfl

theorem metricsPanel_update_snd (m : MetricsPanel) (msg : Msg) : (m.update msg).2 = Cmd.none :=
  rfl

theorem manifestPanel_update_snd (m : ManifestPanel) (msg : Msg) :
    (m.update msg).2 = Cmd.none := by
  unfold ManifestPanel.update
  cases msg <;> dsimp only <;> (try rfl) <;> split_ifs <;> rfl

theorem dashboard_focusDispatch_emitsDelete (d : Dashboard) (msg : Msg) :
    (Dashboard.focusDispatch d msg).2.emitsDeleteRequest = false := by
  unfold Dashboard.focusDispatch
  cases hf : d.focus <;>
    simp [logsPanel_update_snd, eventsPanel_update_snd, metricsPanel_update_snd,
      manifestPanel_update_snd, Cmd.emitsDeleteRequest, Cmd.emitsDeleteRequest.go]

theorem confirmDialog_update_emitsDelete (c : ConfirmDialog) (msg : Msg) :
    (c.Update msg).2.emitsDeleteRequest = false := by
  unfold ConfirmDialog.Update
  split
  · rfl
  · cases msg <;> dsimp only <;> (try rfl) <;> split_ifs <;> rfl

theorem resultViewer_update_snd (r : ResultViewer) (msg : Msg) : (r.Update msg).2 = Cmd.none := by
  unfold ResultViewer.Update
  split
  · rfl
  · cases msg <;> dsimp only <;> (try rfl) <;> split_ifs <;> rfl

theorem podActionMenu_update_emitsDelete (m : PodActionMenu) (msg : Msg) :
    (m.Update msg).2.emitsDeleteRequest = false := by
  unfold PodActionMenu.Update
  split
  · rfl
  · cases msg <;> dsimp only <;> (try rfl) <;> split_ifs <;>
      first
        | rfl
        | (split <;> first
            | rfl
            | (split_ifs <;> first
                | rfl
                | (split <;> rfl)))

theorem actionMenu_update_emitsDelete (env : Env) (m : ActionMenu) (msg : Msg) :
    (ActionMenu.Update env m msg).2.emitsDeleteRequest = false := by
  unfold ActionMenu.Update
  split
  · rfl
  · cases msg <;> dsimp only <;> (try rfl) <;> split_ifs <;>
      first
        | rfl
        | (split <;> first
            | rfl
            | (split_ifs <;> first
                | rfl
                | (split <;> rfl)))

theorem dashboard_updateKeyGlobal_emitsDelete (env : Env) (d : Dashboard) (s : String) :
    (Dashboard.updateKeyGlobal env d s).2.emitsDeleteRequest = false := by
  delta Dashboard.updateKeyGlobal
  by_cases h1 : keyMatches d.keys.podActions s = true
  · rw [if_pos h1]
    cases d.pod <;> rfl
  rw [if_neg h1]
  by_cases h2 : keyMatches d.keys.copyCommands s = true
  · rw [if_pos h2]
    cases d.pod <;> rfl
  rw [if_neg h2]
  by_cases h3 : keyMatches d.keys.help s = true
  · rw [if_pos h3]
    rfl
  rw [if_neg h3]
  by_cases h4 : keyMatches d.keys.nextPanel s = true
  · rw [if_pos h4]
    rfl
  rw [if_neg h4]
  by_cases h5 : keyMatches d.keys.prevPanel s = true
  · rw [if_pos h5]
    rfl
  rw [if_neg h5]
  by_cases h6 : keyMatches d.keys.panel1 s = true
  · rw [if_pos h6]
    rfl
  rw [if_neg h6]
  by_cases h7 : keyMatches d.keys.panel2 s = true
  · rw [if_pos h7]
    rfl
  rw [if_neg h7]
  by_cases h8 : keyMatches d.keys.panel3 s = true
  · rw [if_pos h8]
    rfl
  rw [if_neg h8]
  by_cases h9 : keyMatches d.keys.panel4 s = true
  · rw [if_pos h9]
    rfl
  rw [if_neg h9]
  by_cases h10 : keyMatches d.keys.toggleFullView s = true
  · rw [if_pos h10]
    rfl
  rw [if_neg h10]
  exact dashboard_focusDispatch_emitsDelete _ _

theorem dashboard_updateKey_emitsDelete (env : Env) (d : Dashboard) (s : String) :
    (Dashboard.updateKey env d s).2.emitsDeleteRequest = false := by
  delta Dashboard.updateKey
  by_cases h1 : d.confirmDialog.IsVisible = true
  · rw [if_pos h1]
    exact confirmDialog_update_emitsDelete _ _
  rw [if_neg h1]
  by_cases h2 : d.resultViewer.IsVisible = true
  · rw [if_pos h2]
    show (d.resultViewer.Update (.key s)).2.emitsDeleteRequest = false
    rw [resultViewer_update_snd]
    rfl
  rw [if_neg h2]
  by_cases h3 : d.podActionMenu.IsVisible = true
  · rw [if_pos h3]
    exact podActionMenu_update_emitsDelete _ _
  rw [if_neg h3]
  by_cases h4 : d.actionMenu.IsVisible = true
  · rw [if_pos h4]
    exact actionMenu_update_emitsDelete _ _ _
  rw [if_neg h4]
  by_cases h5 : d.help.IsVisible = true
  · rw [if_pos h5]
    split <;> rfl
  rw [if_neg h5]
  by_cases h6 : d.focus = PanelFocus.FocusLogs ∧ d.logs.IsSearching = true
  · rw [if_pos h6]
    show (d.logs.update (.key s)).2.emitsDeleteRequest = false
    rw [logsPanel_update_snd]
    rfl
  rw [if_neg h6]
  exact dashboard_updateKeyGlobal_emitsDelete _ _ _

theorem dashboard_handlePodAction_emitsDelete (env : Env) (d : Dashboard)
    (item : PodActionItem) :
    (Dashboard.handlePodAction env d item).2.emitsDeleteRequest = false := by
  delta Dashboard.handlePodAction
  by_cases h1 : item.action = "delete"
  · rw [if_pos h1]
    cases d.pod <;> rfl
  rw [if_neg h1]
  by_cases h2 : item.action = "exec"
  · rw [if_pos h2]
    cases d.pod <;> rfl
  rw [if_neg h2]
  by_cases h3 : item.action = "port-forward"
  · rw [if_pos h3]
    cases d.pod <;> rfl
  rw [if_neg h3]
  by_cases h4 : item.action = "describe"
  · rw [if_pos h4]
    cases d.pod <;> rfl
  rw [if_neg h4]
  by_cases h5 : item.action = "copy"
  · rw [if_pos h5]
    cases env.copyError <;> rfl
  rw [if_neg h5]
  rfl

/-- C2: while at least one overlay reports visible, a key message handled by
the Dashboard is delivered to exactly one component — the highest-priority
visible overlay in the fixed order ConfirmDialog > ResultViewer >
PodActionMenu > ActionMenu > Help — whose own update is applied to its state
slice while every other slice, including all four content panels, stays
untouched and receives nothing. -/
theorem dashboard_overlay_routing_c2 :
    ∀ (env : Env) (d : Dashboard) (s : String),
      d.HasActiveOverlay = true →
      ((d.confirmDialog.IsVisible = true →
         Dashboard.Update env d (.key s) =
           ({ d with confirmDialog := (d.confirmDialog.Update (.key s)).1 },
            (d.confirmDialog.Update (.key s)).2))
       ∧ (d.confirmDialog.IsVisible = false → d.resultViewer.IsVisible = true →
           Dashboard.Update env d (.key s) =
             ({ d with resultViewer := (d.resultViewer.Update (.key s)).1 },
              (d.resultViewer.Update (.key s)).2))
       ∧ (d.confirmDialog.IsVisible = false → d.resultViewer.IsVisible = false →
          d.podActionMenu.IsVisible = true →
           Dashboard.Update env d (.key s) =
             ({ d with podActionMenu := (d.podActionMenu.Update (.key s)).1 },
              (d.podActionMenu.Update (.key s)).2))
       ∧ (d.confirmDialog.IsVisible = false → d.resultViewer.IsVisible = false →
          d.podActionMenu.IsVisible = false → d.actionMenu.IsVisible = true →
           Dashboard.Update env d (.key s) =
             ({ d with actionMenu := (ActionMenu.Update env d.actionMenu (.key s)).1 },
              (ActionMenu.Update env d.actionMenu (.key s)).2))
       ∧ (d.confirmDialog.IsVisible = false → d.resultViewer.IsVisible = false →
          d.podActionMenu.IsVisible = false → d.actionMenu.IsVisible = false →
          d.help.IsVisible = true →
           Dashboard.Update env d (.key s) =
             (if s = "?" ∨ s = "esc" then ({ d with help := d.help.Hide }, Cmd.none)
              else (d, Cmd.none)))) := by
  intro env d s _
  have e : Dashboard.Update env d (.key s) = Dashboard.updateKey env d s := rfl
  refine ⟨fun h1 => ?_, fun h1 h2 => ?_, fun h1 h2 h3 => ?_, fun h1 h2 h3 h4 => ?_,
    fun h1 h2 h3 h4 h5 => ?_⟩ <;> rw [e] <;> delta Dashboard.updateKey
  · rw [if_pos h1]
  · rw [if_neg (by simp [h1]), if_pos h2]
  · rw [if_neg (by simp [h1]), if_neg (by simp [h2]), if_pos h3]
  · rw [if_neg (by simp [h1]), if_neg (by simp [h2]), if_neg (by simp [h3]), if_pos h4]
  · rw [if_neg (by simp [h1]), if_neg (by simp [h2]), if_neg (by simp [h3]),
      if_neg (by simp [h4]), if_pos h5]

theorem dashboard_overlay_routing_c2_witness :
    Dashboard.Update sampleEnv dashConfirm (.key "g") =
      ({ dashConfirm with confirmDialog := (dashConfirm.confirmDialog.Update (.key "g")).1 },
       (dashConfirm.confirmDialog.Update (.key "g")).2) :=
  (dashboard_overlay_routing_c2 sampleEnv dashConfirm "g" (by decide)).1 rfl

/-- C1: selecting a pod-action entry whose action is delete, exec or
port-forward never performs the action in that handling step — no command is
produced and the only effect is opening the ConfirmDialog carrying the
action kind and the pod, with a PendingAction recorded for
exec/port-forward and none for delete; describe and copy execute immediately
with no dialog; a DeletePodRequest is emitted only upon a ConfirmResult with
confirmed=true and action delete; and a ConfirmResult with confirmed=false
clears the PendingAction, produces no command and changes nothing else. -/
theorem dashboard_confirm_workflow_c1 :
    ∀ (env : Env) (d : Dashboard) (pod : PodInfo) (item : PodActionItem),
      d.pod = some pod →
      ((item.action = "delete" ∨ item.action = "exec" ∨ item.action = "port-forward" →
         (Dashboard.Update env d (.podActionMenuResult item)).2 = Cmd.none ∧
         (Dashboard.Update env d (.podActionMenuResult item)).1.confirmDialog.visible = true ∧
         (Dashboard.Update env d (.podActionMenuResult item)).1.confirmDialog.action =
           item.action ∧
         (Dashboard.Update env d (.podActionMenuResult item)).1.confirmDialog.data = some pod)
       ∧ (item.action = "delete" →
           (Dashboard.Update env d (.podActionMenuResult item)).1.pendingAction =
             d.pendingAction)
       ∧ (item.action = "exec" ∨ item.action = "port-forward" →
           (Dashboard.Update env d (.podActionMenuResult item)).1.pendingAction = some item)
       ∧ (item.action = "describe" →
           Dashboard.Update env d (.podActionMenuResult item) =
             ({ d with statusMsg := "Loading describe..." },
              .describePod item.command pod.name))
       ∧ (item.action = "copy" →
           (Dashboard.Update env d (.podActionMenuResult item)).1.confirmDialog =
             d.confirmDialog ∧
           (Dashboard.Update env d (.podActionMenuResult item)).2 = Cmd.none)
       ∧ (Dashboard.Update env d (.confirmResult true "delete" (some pod)) =
           ({ d with statusMsg := "Deleting pod..." },
            .emit (.deletePodRequest pod.ns pod.name)))
       ∧ (∀ (action : String) (data : Option PodInfo),
           Dashboard.Update env d (.confirmResult false action data) =
             ({ d with pendingAction := none }, Cmd.none))
       ∧ (∀ msg : Msg, (Dashboard.Update env d msg).2.emitsDeleteRequest = true →
           ∃ p : PodInfo, msg = .confirmResult true "delete" (some p))) := by
  intro env d pod item hpod
  have e : ∀ i, Dashboard.Update env d (.podActionMenuResult i) =
      Dashboard.handlePodAction env d i := fun i => rfl
  refine ⟨fun ha => ?_, fun ha => ?_, fun ha => ?_, fun ha => ?_, fun ha => ?_, ?_, ?_, ?_⟩
  · rcases ha with ha | ha | ha <;>
      simp [e, Dashboard.handlePodAction, ha, hpod, ConfirmDialog.Show]
  · simp [e, Dashboard.handlePodAction, ha, hpod, ConfirmDialog.Show]
  · rcases ha with ha | ha <;>
      simp [e, Dashboard.handlePodAction, ha, hpod, ConfirmDialog.Show]
  · simp [e, Dashboard.handlePodAction, ha, hpod]
  · rw [e]
    delta Dashboard.handlePodAction
    rw [if_neg (by simp [ha]), if_neg (by simp [ha]), if_neg (by simp [ha]),
      if_neg (by simp [ha]), if_pos ha]
    cases env.copyError <;> simp
  · show Dashboard.handleConfirm d true "delete" (some pod) = _
    rfl
  · intro action data
    show Dashboard.handleConfirm d false action data = _
    rfl
  · intro msg h
    cases msg with
    | confirmResult confirmed action data =>
      cases confirmed with
      | false =>
        exfalso
        revert h
        show (Dashboard.handleConfirm d false action data).2.emitsDeleteRequest = true → False
        simp [Dashboard.handleConfirm, Cmd.emitsDeleteRequest]
      | true =>
        by_cases haction : action = "delete"
        · subst haction
          cases data with
          | some p => exact ⟨p, rfl⟩
          | none =>
            exfalso
            revert h
            show (Dashboard.handleConfirm d true "delete" none).2.emitsDeleteRequest = true →
              False
            simp [Dashboard.handleConfirm, Cmd.emitsDeleteRequest]
        · exfalso
          revert h
          show (Dashboard.handleConfirm d true action data).2.emitsDeleteRequest = true → False
          delta Dashboard.handleConfirm
          rw [if_pos rfl, if_neg haction]
          split_ifs
          · cases d.pendingAction <;> simp [Cmd.emitsDeleteRequest]
          · simp [Cmd.emitsDeleteRequest]
    | key s =>
      exfalso
      revert h
      show (Dashboard.updateKey env d s).2.emitsDeleteRequest = true → False
      rw [dashboard_updateKey_emitsDelete]
      simp
    | podActionMenuResult i =>
      exfalso
      revert h
      show (Dashboard.handlePodAction env d i).2.emitsDeleteRequest = true → False
      rw [dashboard_handlePodAction_emitsDelete]
      simp
    | execFinished err =>
      exfalso
      revert h
      cases err <;> simp [Dashboard.Update, Cmd.emitsDeleteRequest]
    | describeOutput t c err =>
      exfalso
      revert h
      cases err <;> simp [Dashboard.Update, Cmd.emitsDeleteRequest]
    | actionMenuResult i copied err =>
      exfalso
      revert h
      cases err <;> by_cases hc : copied = true <;>
        simp [Dashboard.Update, hc, Cmd.emitsDeleteRequest]
    | windowSize w ht =>
      exfalso
      revert h
      show (Dashboard.focusDispatch d _).2.emitsDeleteRequest = true → False
      rw [dashboard_focusDispatch_emitsDelete]
      simp
    | spinnerTick =>
      exfalso
      revert h
      show (Dashboard.focusDispatch d _).2.emitsDeleteRequest = true → False
      rw [dashboard_focusDispatch_emitsDelete]
      simp
    | loaded ws nss err =>
      exfalso
      revert h
      show (Dashboard.focusDispatch d _).2.emitsDeleteRequest = true → False
      rw [dashboard_focusDispatch_emitsDelete]
      simp
    | podsLoaded ps err =>
      exfalso
      revert h
      show (Dashboard.focusDispatch d _).2.emitsDeleteRequest = true → False
      rw [dashboard_focusDispatch_emitsDelete]
      simp
    | dashboardData l ev mt rl hp =>
      exfalso
      revert h
      show (Dashboard.focusDispatch d _).2.emitsDeleteRequest = true → False
      rw [dashboard_focusDispatch_emitsDelete]
      simp
    | tick =>
      exfalso
      revert h
      show (Dashboard.focusDispatch d _).2.emitsDeleteRequest = true → False
      rw [dashboard_focusDispatch_emitsDelete]
      simp
    | deletePodRequest ns pn =>
      exfalso
      revert h
      show (Dashboard.focusDispatch d _).2.emitsDeleteRequest = true → False
      rw [dashboard_focusDispatch_emitsDelete]
      simp

theorem dashboard_confirm_workflow_c1_witness :
    (Dashboard.Update sampleEnv sampleDashboard (.podActionMenuResult itemDelete)).2 =
      Cmd.none ∧
    (Dashboard.Update sampleEnv sampleDashboard
      (.podActionMenuResult itemDelete)).1.confirmDialog.visible = true ∧
    (Dashboard.Update sampleEnv sampleDashboard
      (.podActionMenuResult itemDelete)).1.confirmDialog.action = itemDelete.action ∧
    (Dashboard.Update sampleEnv sampleDashboard
      (.podActionMenuResult itemDelete)).1.confirmDialog.data = some samplePod :=
  (dashboard_confirm_workflow_c1 sampleEnv sampleDashboard samplePod itemDelete rfl).1
    (Or.inl rfl)

theorem navigator_filter_semantics_c9_witness :
    c9nav.maxItems = (AllResourceTypes.length : Int) ∧
      (NewNavigator.filteredWorkloads = NewNavigator.workloads ∧
       NewNavigator.filteredPods = NewNavigator.pods ∧
       NewNavigator.filteredNamespaces = NewNavigator.namespaces) :=
  ⟨navigator_filter_semantics_c9.2.2.2.1 c9nav rfl,
   navigator_filter_semantics_c9.2.2.2.2 NewNavigator rfl⟩

theorem navigator_selection_total_c10_witness :
    c10nav.SelectedWorkload = none ∧ c10nav.SelectedPod = none ∧
      c10nav.SelectedNamespace = "" ∧ c10nav.SelectedResourceType = .deployments :=
  ⟨(navigator_selection_total_c10 c10nav).1 (by decide),
   (navigator_selection_total_c10 c10nav).2.1 (by decide),
   (navigator_selection_total_c10 c10nav).2.2.1 (by decide),
   (navigator_selection_total_c10 c10nav).2.2.2.1 (by decide)⟩

theorem nav_updateKey_searching (n : Navigator) (s : String) (hs : n.searching = true)
    (h1 : ¬(s = "enter" ∨ s = "esc")) :
    n.updateKey s =
      ({ n with
          searchInput := textinputUpdate n.searchInput s,
          searchQuery := textinputUpdate n.searchInput s, cursor := 0 }, false) := by
  delta Navigator.updateKey
  rw [if_pos hs, if_neg h1]

/-- C4 (amended): a timer tick handled while a pod is being viewed re-issues
the dashboard-data fetch and schedules exactly one further tick in the same
handling step, batched alongside the fetch rather than upon its completion —
handling the fetch result (dashboardDataMsg) schedules nothing.  A tick
handled outside the Viewing state schedules the next tick without fetching.
Ticks do not accumulate (each handled tick schedules exactly one successor),
but an overrunning fetch does not delay the next tick. -/
theorem tick_reschedule_c4 :
    ∀ (env : Env) (m : Model) (pod : PodInfo),
      (m.view = .ViewDashboard → m.pod = some pod →
        Model.Update env m .tick =
          (m, .batch [.loadDashboardData pod, .tick m.config.refreshInterval]))
      ∧ (∀ logs events metrics related helpers,
          (Model.Update env m (.dashboardData logs events metrics related helpers)).2 =
            Cmd.none)
      ∧ (m.view = .ViewNavigator →
          Model.Update env m .tick = (m, .tick m.config.refreshInterval)) := by
  intro env m pod
  refine ⟨fun hv hp => ?_, fun logs events metrics related helpers => ?_, fun hv => ?_⟩
  · obtain ⟨kc, cfg, nav, dash, help, view, w, h, loading, err, keys, wl, pd⟩ := m
    dsimp only at hv hp ⊢
    subst hv
    subst hp
    rfl
  · rfl
  · obtain ⟨kc, cfg, nav, dash, help, view, w, h, loading, err, keys, wl, pd⟩ := m
    dsimp only at hv ⊢
    subst hv
    rfl

/-- C4 counterexample: the claim says one further tick is scheduled only
upon completion of the fetch; in the code the tick-message handler already
schedules the next tick in the same step, batched with the fetch it issues,
and the completion message (dashboardDataMsg) schedules nothing — so an
overrunning fetch does not delay the next tick. -/
theorem tick_reschedule_c4_counterexample :
    (Model.Update sampleEnv sampleModelViewing .tick).2 =
      Cmd.batch [Cmd.loadDashboardData samplePod, Cmd.tick 5] ∧
    (Model.Update sampleEnv sampleModelViewing (.dashboardData [] [] none none [])).2 =
      Cmd.none :=
  ⟨rfl, rfl⟩

theorem tick_reschedule_c4_witness :
    Model.Update sampleEnv sampleModelViewing .tick =
      (sampleModelViewing,
       .batch [.loadDashboardData samplePod, .tick sampleModelViewing.config.refreshInterval]) :=
  (tick_reschedule_c4 sampleEnv sampleModelViewing samplePod).1 rfl rfl

/-- C5 (amended): Back in the Viewing state switches to the Navigator in
Pods mode (a workload is still recorded there), clears the selected pod and
issues no command — but it does not stop the refresh timer: the pending
tick, once handled in the Navigator view, schedules one further tick
(without fetching), so ticks keep firing.  Back in Pods mode returns to
Workloads mode and issues a workloads reload; Back in NamespaceSelect or
ResourceTypeSelect mode returns to Workloads mode without any reload. -/
theorem back_transitions_c5 :
    ∀ (env : Env) (m : Model),
      ((m.view = .ViewDashboard → ∀ w, m.workload = some w →
         Model.handleBack m =
           ({ m with
               view := .ViewNavigator, pod := none,
               navigator := m.navigator.SetMode .ModePods }, Cmd.none))
       ∧ (m.view = .ViewNavigator → m.navigator.mode = .ModePods →
           Model.handleBack m =
             ({ m with navigator := m.navigator.SetMode .ModeWorkloads, workload := none },
              .loadWorkloads))
       ∧ (m.view = .ViewNavigator → m.navigator.mode = .ModeNamespace →
           Model.handleBack m =
             ({ m with navigator := m.navigator.SetMode .ModeWorkloads }, Cmd.none))
       ∧ (m.view = .ViewNavigator → m.navigator.mode = .ModeResourceType →
           Model.handleBack m =
             ({ m with navigator := m.navigator.SetMode .ModeWorkloads }, Cmd.none))
       ∧ (m.view = .ViewDashboard → ∀ w, m.workload = some w →
           Model.Update env (Model.handleBack m).1 .tick =
             ((Model.handleBack m).1, .tick m.config.refreshInterval))) := by
  intro env m
  refine ⟨fun hv w hw => ?_, fun hv hmode => ?_, fun hv hmode => ?_, fun hv hmode => ?_,
    fun hv w hw => ?_⟩
  · obtain ⟨kc, cfg, nav, dash, help, view, wd, ht, loading, err, keys, wl, pd⟩ := m
    dsimp only at hv hw ⊢
    subst hv
    subst hw
    rfl
  · obtain ⟨kc, cfg, nav, dash, help, view, wd, ht, loading, err, keys, wl, pd⟩ := m
    dsimp only at hv hmode ⊢
    subst hv
    simp only [Model.handleBack, Navigator.Mode, hmode]
  · obtain ⟨kc, cfg, nav, dash, help, view, wd, ht, loading, err, keys, wl, pd⟩ := m
    dsimp only at hv hmode ⊢
    subst hv
    simp only [Model.handleBack, Navigator.Mode, hmode]
  · obtain ⟨kc, cfg, nav, dash, help, view, wd, ht, loading, err, keys, wl, pd⟩ := m
    dsimp only at hv hmode ⊢
    subst hv
    simp only [Model.handleBack, Navigator.Mode, hmode]
  · obtain ⟨kc, cfg, nav, dash, help, view, wd, ht, loading, err, keys, wl, pd⟩ := m
    dsimp only at hv hw ⊢
    subst hv
    subst hw
    rfl

/-- C5 counterexample: after Back leaves the Viewing state the claim says no
further tick is scheduled; in the code the already pending tick, handled in
the Navigator view, still returns a tick command that schedules the next
tick — the refresh timer is never stopped. -/
theorem back_transitions_c5_counterexample :
    (Model.handleBack sampleModelViewing).1.view = ViewState.ViewNavigator ∧
    (Model.handleBack sampleModelViewing).1.pod = none ∧
    (Model.Update sampleEnv (Model.handleBack sampleModelViewing).1 .tick).2 = Cmd.tick 5 :=
  ⟨rfl, rfl, rfl⟩

theorem back_transitions_c5_witness :
    Model.handleBack sampleModelViewing =
      ({ sampleModelViewing with
          view := .ViewNavigator, pod := none,
          navigator := sampleModelViewing.navigator.SetMode .ModePods }, Cmd.none) :=
  (back_transitions_c5 sampleEnv sampleModelViewing).1 rfl sampleWorkload rfl

/-- C3 (amended): a namespaces/workloads or pods load result carrying an
error replaces the screen with the full-screen error view.  An explicit
refresh in the Navigator view re-issues the workloads load (regardless of
which load failed) and sets the loading flag, but the stored error is never
cleared: even after a subsequent successful load result the screen remains
the full-screen error view, so the error state is not recoverable. -/
theorem load_error_screen_c3 :
    ∀ (env : Env) (m : Model) (e : String) (ws : List WorkloadInfo) (nss : List String)
      (ps : List PodInfo),
      ((Model.Update env m (.loaded ws nss (some e))).1.View = .error e)
      ∧ ((Model.Update env m (.podsLoaded ps (some e))).1.View = .error e)
      ∧ (m.help.IsVisible = false → m.navigator.IsSearching = false →
         m.keys = DefaultKeyMap → m.view = .ViewNavigator →
          Model.Update env m (.key "r") = ({ m with loading := true }, Cmd.loadWorkloads))
      ∧ (m.err = some e → (Model.Update env m (.loaded ws nss none)).1.View = .error e) := by
  intro env m e ws nss ps
  refine ⟨rfl, rfl, fun hh hs hk hv => ?_, fun herr => ?_⟩
  · obtain ⟨kc, cfg, nav, dash, help, view, wd, ht, loading, err, keys, wl, pd⟩ := m
    obtain ⟨hentries, hwd, hht, hvis⟩ := help
    obtain ⟨nwl, npo, nnss, ncur, nmode, nw, nh, nsi, nsg, nsq, nrt, nkm⟩ := nav
    dsimp only [HelpPanel.IsVisible, Navigator.IsSearching] at hh hs
    dsimp only at hk hv ⊢
    subst hh
    subst hs
    subst hk
    subst hv
    rfl
  · show Model.View _ = _
    delta Model.View
    have e2 : (Model.Update env m (.loaded ws nss none)).1.err = m.err := rfl
    rw [e2, herr]

/-- C3 counterexample: after a pods load fails, the screen is the full-screen
error view; refresh re-issues the workloads load (not the failed pods load),
and after that load succeeds the screen is still the error view — the error
is never cleared, contradicting the claimed recovery to normal rendering. -/
theorem load_error_screen_c3_counterexample :
    erroredModel.View = Model.Screen.error "connection refused" ∧
    (Model.Update sampleEnv erroredModel (.key "r")).2 = Cmd.loadWorkloads ∧
    (Model.Update sampleEnv (Model.Update sampleEnv erroredModel (.key "r")).1
        (.loaded [sampleWorkload] ["default"] none)).1.View =
      Model.Screen.error "connection refused" :=
  ⟨rfl, rfl, rfl⟩

theorem load_error_screen_c3_witness :
    (Model.Update sampleEnv sampleModel (.podsLoaded [] (some "boom"))).1.View =
      Model.Screen.error "boom" ∧
    Model.Update sampleEnv { sampleModel with loading := false } (.key "r") =
      ({ { sampleModel with loading := false } with loading := true }, Cmd.loadWorkloads) :=
  ⟨(load_error_screen_c3 sampleEnv sampleModel "boom" [] [] []).2.1,
   (load_error_screen_c3 sampleEnv { sampleModel with loading := false } "boom" [] [] []).2.2.1
     rfl rfl rfl rfl⟩

/-- C7 (amended): while the Navigator text filter has input focus, Escape,
Enter and Ctrl+C are the keys intercepted at the global level — Escape and
Enter exit search mode and commit the current text as the active filter,
Ctrl+C saves the configuration and quits; every other key reaches the filter
input, updates the active filter live and resets the cursor to 0. -/
theorem search_key_interception_c7 :
    ∀ (env : Env) (m : Model) (s : String),
      m.view = .ViewNavigator → m.navigator.IsSearching = true → m.help.IsVisible = false →
      ((s = "esc" ∨ s = "enter" →
         Model.Update env m (.key s) =
           ({ m with navigator := m.navigator.CloseSearch }, Cmd.none) ∧
         (m.navigator.CloseSearch).searching = false ∧
         (m.navigator.CloseSearch).searchQuery = m.navigator.searchInput)
       ∧ (s = "ctrl+c" → Model.Update env m (.key s) = (m, Cmd.quit))
       ∧ (¬s = "esc" → ¬s = "enter" → ¬s = "ctrl+c" →
           Model.Update env m (.key s) =
             ({ m with navigator := (m.navigator.updateKey s).1 }, Cmd.none) ∧
           (m.navigator.updateKey s).1.searchInput =
             textinputUpdate m.navigator.searchInput s ∧
           (m.navigator.updateKey s).1.searchQuery =
             textinputUpdate m.navigator.searchInput s ∧
           (m.navigator.updateKey s).1.cursor = 0)) := by
  intro env m s hview hsearch hhelp
  have hupd : ∀ t : String, ¬(t = "enter" ∨ t = "esc") →
      m.navigator.updateKey t =
        ({ m.navigator with
            searchInput := textinputUpdate m.navigator.searchInput t,
            searchQuery := textinputUpdate m.navigator.searchInput t, cursor := 0 }, false) :=
    fun t ht => nav_updateKey_searching m.navigator t hsearch ht
  refine ⟨fun hs => ?_, fun hs => ?_, fun hs1 hs2 hs3 => ?_⟩
  · have key : Model.Update env m (.key s) =
        ({ m with navigator := m.navigator.CloseSearch }, Cmd.none) := by
      show Model.updateKey env m s = _
      delta Model.updateKey
      rw [if_neg (by simp [hhelp]), if_pos ⟨hview, hsearch⟩]
      rcases hs with hs | hs <;> subst hs
      · rw [if_pos rfl]
      · rw [if_neg (by decide), if_pos rfl]
    exact ⟨key, rfl, rfl⟩
  · subst hs
    show Model.updateKey env m "ctrl+c" = _
    delta Model.updateKey
    rw [if_neg (by simp [hhelp]), if_pos ⟨hview, hsearch⟩, if_neg (by decide),
      if_neg (by decide), if_pos rfl]
  · have hne : ¬(s = "enter" ∨ s = "esc") := by
      rintro (h | h)
      · exact hs2 h
      · exact hs1 h
    have e2 : m.navigator.Update (.key s) = ((m.navigator.updateKey s).1, Cmd.none) := by
      show (((m.navigator.updateKey s).1,
        if (m.navigator.updateKey s).2 then Cmd.blink else Cmd.none) : Navigator × Cmd) = _
      rw [hupd s hne]
      rfl
    refine ⟨?_, ?_, ?_, ?_⟩
    · show Model.updateKey env m s = _
      delta Model.updateKey
      rw [if_neg (by simp [hhelp]), if_pos ⟨hview, hsearch⟩, if_neg hs1, if_neg hs2,
        if_neg hs3]
      simp only [e2]
    · rw [hupd s hne]
    · rw [hupd s hne]
    · rw [hupd s hne]

/-- C7 counterexample: the claim says only Escape and Enter are intercepted
globally while the filter has focus and that every other key reaches the
filter input; Ctrl+C is also intercepted — it quits, and the navigator (and
hence the filter input) is left untouched. -/
theorem search_key_interception_c7_counterexample :
    (Model.Update sampleEnv searchingModel (.key "ctrl+c")).2 = Cmd.quit ∧
    (Model.Update sampleEnv searchingModel (.key "ctrl+c")).1.navigator =
      searchingModel.navigator :=
  ⟨rfl, rfl⟩

theorem search_key_interception_c7_witness :
    Model.Update sampleEnv searchingModel (.key "esc") =
      ({ searchingModel with navigator := searchingModel.navigator.CloseSearch }, Cmd.none) ∧
    (searchingModel.navigator.CloseSearch).searching = false ∧
    (searchingModel.navigator.CloseSearch).searchQuery =
      searchingModel.navigator.searchInput :=
  (search_key_interception_c7 sampleEnv searchingModel "esc" rfl rfl rfl).1 (Or.inl rfl)

end K9sight
